import Mathlib

/-!
Verification development for the `@nina-protocol/js-sdk` client library.

The repository is a JavaScript SDK over a REST indexing API and a Solana
on-chain program.  We give a shallow embedding of its four source files:

* `hubs.js` (src/unnamed/part_001, first document): Hub module;
* `exchanges.js` (src/unnamed/part_001, second document): Exchange module;
* `src/resources/releases.js`: Release module;
* the `hubInitWithCredit` variant of the Hub module embedded after
  `package.json` (src/package.json, second document).

External effects (REST GETs, on-chain account fetches, blockhash queries,
wallet transaction submission, confirmation polling) are modelled by a
`World` record of fallible call results; each SDK operation becomes a
function in a reader/writer/exception monad `M` which also records a trace
of observable events.  A JavaScript exception is an `Except.error`;
`try { .. } catch` is `M.tryCatch`.  JavaScript numbers are modelled as
exact rationals (`ℚ`); `bn.js` big integers as `Int` (the `BN`
constructor truncates fractional JS numbers).  References to identifiers
that are not in scope at a call site in the JavaScript source (`request`
in `hubAddRelease`, `purchaseViaHub` and `addRoyaltyRecipient`, `hub` in
`postUpdateViaHub`, `endpoints` in `releasePurchase`, and `wrapSol`,
which is used but never imported in `exchanges.js` and `releases.js`)
raise a `ReferenceError`, modelled by `jsRefError`.
-/

/-- Solana public keys, abstractly. -/
abbrev PK := Nat

/-- JavaScript exception values, abstractly. -/
abbrev Err := Nat

/-- The error token used for a JavaScript `ReferenceError`/`TypeError`
raised by evaluating an identifier that is not in scope (see module
comment). -/
def jsRefError : Err := 0

/-- A value in a REST query string: `limit`/`offset` are numbers,
`sort`/`transactionId` are strings. -/
inductive QVal where
  | num (n : Int)
  | str (s : String)
deriving DecidableEq

/-- A REST query parameter list, as passed to `NinaClient.get`. -/
abbrev Params := List (String × QVal)

/-- Modelled from the spec: the response produced by the REST indexing
API (`NinaClient.get` lives in `src/client.js`, which is not part of the
given sources; the spec describes it as a trivial HTTP GET wrapper that
returns the API result).  `payload` is the opaque response body;
`hubHandle` is the `hub.handle` field destructured from hub responses by
`hubUpdateConfig`, `hubAddCollaborator`, `hubUpdateCollaboratorPermission`,
`hubRemoveCollaborator`, `hubContentToggleVisibility`, `hubAddRelease`,
`postInitViaHub` and `collectRoyaltyForReleaseViaHub`. -/
structure RestVal where
  payload : Nat
  hubHandle : String
deriving DecidableEq

/-- The on-chain `Hub` account, as read through
`program.account.hub.fetch`: the fields this SDK uses. -/
structure HubAccount where
  handle : String
  hubSigner : PK
  publishFee : Int
  referralFee : Int
deriving DecidableEq

/-- The on-chain `Release` account, as read through
`program.account.release.fetch`: the fields this SDK uses.
`royaltyRecipients` keeps only each recipient's `recipientAuthority`,
which is all `collectRoyaltyForReleaseViaHub` inspects. -/
structure ReleaseAccount where
  releaseMint : PK
  paymentMint : PK
  releaseSigner : PK
  royaltyTokenAccount : PK
  price : Int
  resalePercentage : Int
  royaltyRecipients : List PK
deriving DecidableEq

/-- The on-chain `Exchange` account, as read through
`program.account.exchange.fetch`: the fields this SDK uses. -/
structure ExchangeAccount where
  initializer : PK
  initializerExpectedMint : PK
  initializerSendingMint : PK
  exchangeEscrowTokenAccount : PK
  exchangeSigner : PK
  expectedAmount : Int
  initializerAmount : Int
  isSelling : Bool
deriving DecidableEq

/-- The well-known addresses from `NinaClient.ids` used by the SDK. -/
structure Ids where
  usdc : PK
  wsol : PK
  hubCredit : PK
  publishingCredit : PK
  tokenProgram : PK
  metaplex : PK
  vault : PK
deriving DecidableEq

/-- One seed of a program-derived-address derivation: either a UTF-8
string constant/handle/slug-hash (`Buffer.from(utf8.encode(..))`) or the
bytes of a public key (`key.toBuffer()`). -/
inductive Seed where
  | str (s : String)
  | key (k : PK)
deriving DecidableEq

/-- A deterministic stand-in for one mixing step of an address
derivation (bounded by a fixed modulus so that concrete derivations
evaluate cheaply). -/
def seedMix (a b : Nat) : Nat := (a * 31 + b + 1) % 1000000007

/-- A deterministic code for a string seed. -/
def strCode (s : String) : Nat :=
  s.data.foldl (fun a c => seedMix a c.toNat) 7

/-- Models `anchor.web3.PublicKey.findProgramAddress` from the
`@solana/web3.js` dependency: a fixed, deterministic function of the
seed list and the program id, returning the derived address and a bump.
The dependency computes a SHA-256-based off-curve address; only its
determinism and its pure dependence on `(seeds, programId)` matter to
the claims, so a concrete injective-style mixing function stands in for
the hash. -/
def findProgramAddress (seeds : List Seed) (programId : PK) : PK × Nat :=
  let h := seeds.foldl
    (fun a s => match s with
      | .str t => seedMix a (strCode t)
      | .key k => seedMix (seedMix a 1) k)
    (seedMix programId 3)
  (h, h % 256)

/-- Models `MD5` from the `crypto-js` dependency: a fixed deterministic
digest rendered as a string.  Only determinism and pure dependence on
the input matter to the claims, so a concrete stand-in replaces the real
digest. -/
def MD5 (s : String) : String :=
  "h" ++ toString (strCode s)

/-- Models `decodeNonEncryptedByteArray` from `src/utils.js` (not among
the given sources): decodes the on-chain byte-array handle to a string.
Our `HubAccount.handle` is already a string, so the decoder is the
identity; no claim depends on its value. -/
def decodeNonEncryptedByteArray (handle : String) : String := handle

/-- `new anchor.BN(x)` on a JavaScript number: `bn.js` truncates the
number to an integer. -/
def bnOfNum (q : ℚ) : Int := q.floor

/-- `Math.round`. -/
def mathRound (q : ℚ) : Int := (q + 1/2).floor

/-- A Solana transaction as assembled by this SDK: the instruction name
invoked on the program, its named account list, optional pre-instructions
(possibly `undefined` entries, as in `hubInit`'s
`preInstructions([usdcVaultIx, wrappedSolVaultIx])`), the signers added
by `partialSign`/`.signers(..)`, and the `feePayer`/`recentBlockhash`
fields which start unset. -/
structure Tx where
  method : String
  accounts : List (String × PK)
  pre : List (Option Nat)
  remaining : List PK
  signers : List PK
  feePayer : Option PK
  blockhash : Option Nat
deriving DecidableEq

/-- An observable event of an SDK operation. -/
inductive Event where
  /-- A GET through `NinaClient.get` (REST indexing API). -/
  | restGet (path : String) (params : Option Params) (wad : Bool)
  /-- A direct `axios.get`. -/
  | axiosGet (url : String)
  /-- A direct `axios.post` (Jupiter swap). -/
  | axiosPost (url : String)
  /-- `provider.wallet.sendTransaction(tx, connection)`. -/
  | sendTx (tx : Tx)
  /-- An anchor `.rpc()` submission (used only by `hubInitWithCredit`). -/
  | rpcSend (method : String)
  /-- `getConfirmTransaction(txid, connection)` from `src/utils.js`. -/
  | confirmTx (txid : Nat)
  /-- `connection.getParsedTransaction(txid, commitment)`. -/
  | parsedTx (txid : Nat) (commitment : String)
  /-- `console.warn(error)` / `console.log(error)` / `console.error(err)`
  in a `catch` block. -/
  | logErr (e : Err)
deriving DecidableEq

/-- The environment of one SDK call: the wallet, the program, and the
result of every external interaction.  A field of type `Except Err _`
models a fallible asynchronous call: `.error e` means the call threw. -/
structure World where
  programId : PK
  walletKey : PK
  ids : Ids
  /-- `client.endpoints.api`. -/
  apiEndpoint : String
  /-- `process.env.NINA_API_ENDPOINT`. -/
  envApiEndpoint : String
  /-- `await client.useProgram()`. -/
  useProgram : Except Err Unit
  /-- `await anchor.Program.at(ids.programs.nina, provider)`
  (only `hubInitWithCredit` constructs its program this way). -/
  programAt : Except Err Unit
  /-- `program.account.exchange.createInstruction(kp)` /
  `program.account.exchangeHistory.createInstruction(kp)`: the account
  creation instruction for a fresh keypair. -/
  createAccountIx : PK → Except Err Nat
  /-- `NinaClient.get(path, params, withAccountData)` — modelled from the
  spec as a single REST GET returning the API result. -/
  restGet : String → Option Params → Bool → Except Err RestVal
  /-- `program.account.hub.fetch`. -/
  hubAccount : PK → Except Err HubAccount
  /-- `program.account.release.fetch`. -/
  releaseAccount : PK → Except Err ReleaseAccount
  /-- `program.account.exchange.fetch`. -/
  exchangeAccount : PK → Except Err ExchangeAccount
  /-- `(await provider.connection.getRecentBlockhash()).blockhash`. -/
  blockhash : Except Err Nat
  /-- `provider.wallet.sendTransaction(tx, provider.connection)`,
  returning the transaction id. -/
  send : Tx → Except Err Nat
  /-- An anchor `.rpc()` submission, returning the transaction id. -/
  rpc : String → Except Err Nat
  /-- `getConfirmTransaction(txid, connection)` from `src/utils.js`
  (not among the given sources): polls until the transaction id is
  confirmed, throwing on failure. -/
  confirm : Nat → Except Err Unit
  /-- `connection.getParsedTransaction(txid, commitment)`. -/
  parsed : Nat → String → Except Err Unit
  /-- A direct `axios.get(url)` whose result is ignored. -/
  axios : String → Except Err Unit
  /-- `findOrCreateAssociatedTokenAccount(connection, payer, owner, .., mint)`
  from `src/utils.js` (not among the given sources): returns the
  associated token account address for `(owner, mint)` and, when the
  account does not exist yet, a creation instruction. -/
  ata : PK → PK → Except Err (PK × Option Nat)
  /-- `createMintInstructions(provider, authority, mint, 0)` from
  `src/utils.js`. -/
  mintIxs : PK → Except Err (List Nat)
  /-- `uiToNative(price, mint)` from `src/utils.js`. -/
  uiToNative : ℚ → PK → Int
  /-- `getUsdcBalance(wallet, connection)` from `src/utils.js`. -/
  usdcBalance : Except Err ℚ
  /-- `connection.getParsedTokenAccountsByOwner(owner, { mint })`: the
  token amounts of the returned accounts (`hubWithdraw` reads entry 0). -/
  tokenAccounts : PK → PK → Except Err (List Int)
  /-- The SOL price from `https://price.jup.ag/v1/price?id=SOL`. -/
  solPrice : Except Err ℚ
  /-- The route list from the Jupiter quote API (abstract route ids). -/
  jupQuote : Int → Except Err (List Nat)
  /-- An `axios.post` to the Jupiter swap API for one route. -/
  jupSwapPost : Nat → Except Err Unit
  /-- `client.isSol(mint)`. -/
  isSol : PK → Bool
  /-- `anchor.web3.Keypair.generate()`: the fresh keypair produced by the
  n-th generation performed by the call (0-indexed). -/
  freshKey : Nat → PK
  /-- `Date.now()` in milliseconds. -/
  nowMs : ℚ

/-- The monad of an SDK operation: reads the `World`, may raise a
JavaScript exception, and records a trace of events. -/
def M (α : Type) : Type := World → Except Err α × List Event

/-- Monadic return. -/
def M.pureM (a : α) : M α := fun _ => (.ok a, [])

/-- Monadic bind: sequencing of `await`s; an exception aborts the rest
of the computation but keeps the events already performed. -/
def M.bindM (x : M α) (f : α → M β) : M β := fun w =>
  match x w with
  | (.ok a, t) => let r := f a w
                  (r.1, t ++ r.2)
  | (.error e, t) => (.error e, t)

instance : Monad M where
  pure := M.pureM
  bind := M.bindM

/-- Read the environment (`client`, `provider`, `program`). -/
def M.ask : M World := fun w => (.ok w, [])

/-- Raise a JavaScript exception. -/
def M.throw (e : Err) : M α := fun _ => (.error e, [])

/-- `try { x } catch (e) { h e }`. -/
def M.tryCatch (x : M α) (h : Err → M α) : M α := fun w =>
  match x w with
  | (.ok a, t) => (.ok a, t)
  | (.error e, t) => let r := h e w
                     (r.1, t ++ r.2)

/-- A fallible external call that leaves no event. -/
def M.call (r : World → Except Err α) : M α := fun w => (r w, [])

/-- `NinaClient.get(path, params, withAccountData)`. -/
def M.ninaGet (path : String) (ps : Option Params) (wad : Bool) : M RestVal :=
  fun w => (w.restGet path ps wad, [.restGet path ps wad])

/-- `axios.get(url)` (result ignored). -/
def M.axiosGet (url : String) : M Unit :=
  fun w => (w.axios url, [.axiosGet url])

/-- `provider.wallet.sendTransaction(tx, provider.connection)`. -/
def M.sendTx (tx : Tx) : M Nat :=
  fun w => (w.send tx, [.sendTx tx])

/-- An anchor `.rpc()` submission. -/
def M.rpcSend (method : String) : M Nat :=
  fun w => (w.rpc method, [.rpcSend method])

/-- `getConfirmTransaction(txid, connection)`. -/
def M.confirmTx (txid : Nat) : M Unit :=
  fun w => (w.confirm txid, [.confirmTx txid])

/-- `connection.getParsedTransaction(txid, commitment)`. -/
def M.parsedTx (txid : Nat) (c : String) : M Unit :=
  fun w => (w.parsed txid c, [.parsedTx txid c])

/-- `.toBase58()` on a public key, and the string interpolation of a
`PublicKey` object in a template literal. -/
def pkStr (k : PK) : String := toString k

/-- The value returned by an SDK operation (one constructor per return
shape occurring in the sources). -/
inductive Ret where
  /-- JavaScript `undefined` (a `catch` block with no `return`, or the
  guard return of `collectRoyaltyForRelease`). -/
  | undefined
  | bool (b : Bool)
  /-- `return { error }` (the releases-module catch blocks). -/
  | errWrap (e : Err)
  /-- A REST response returned directly. -/
  | restVal (r : RestVal)
  /-- `return { release: .. }` wrapping a REST response. -/
  | releaseWrap (r : RestVal)
  /-- A derived public key returned directly. -/
  | key (k : PK)
  /-- `postInitViaHub`: `{ hubPost, referenceReleaseHubRelease }`. -/
  | postInitRet (hubPost : PK) (referenceReleaseHubRelease : Option PK)
  /-- `exchangeInit`: `{ txid, releaseAccount, publicKey, releaseMint }`. -/
  | exchangeInitRet (txid : Nat) (releaseAccount : ReleaseAccount)
      (publicKey : PK) (releaseMint : PK)
  /-- `exchangeCancel`: `{ exchangePubkey, txid }`. -/
  | exchangeCancelRet (exchangePubkey : PK) (txid : Nat)
  /-- `collectRoyaltyForReleaseViaHub`:
  `{ hubRelease, recipient, paymentMint }`. -/
  | collectViaHubRet (hubRelease : PK) (recipient : Option PK)
      (paymentMint : PK)
  /-- `exchangeAccept`: the transaction id. -/
  | txidRet (t : Nat)
  /-- `initializeReleaseAndMint`:
  `{ release, releaseBump, releaseMint, hubRelease }`. -/
  | initMintRet (release : PK) (releaseBump : Nat) (releaseMint : PK)
      (hubRelease : Option PK)
  /-- `hubInitWithCredit`: `return hub.toBase58` — the (un-invoked)
  method reference of the given key. -/
  | fnRef (k : PK)
deriving DecidableEq

/-- The pagination argument of the `fetchAll` helpers: each field may be
absent (`undefined`). -/
structure Pagination where
  limit : Option Int
  offset : Option Int
  sort : Option String
deriving DecidableEq

/-- JavaScript `x || d` for a possibly-undefined number `x`: `0` and
`undefined` are falsy. -/
def jsOrNum (v : Option Int) (d : Int) : Int :=
  match v with
  | none => d
  | some n => if n = 0 then d else n

/-- JavaScript `x || d` for a possibly-undefined string `x`: `""` and
`undefined` are falsy. -/
def jsOrStr (v : Option String) (d : String) : String :=
  match v with
  | none => d
  | some s => if s = "" then d else s

/-- The query parameters built by every `fetchAll` helper:
`{ limit: limit || 20, offset: offset || 0, sort: sort || 'desc' }`. -/
def paginationParams (p : Pagination) : Params :=
  [("limit", .num (jsOrNum p.limit 20)),
   ("offset", .num (jsOrNum p.offset 0)),
   ("sort", .str (jsOrStr p.sort "desc"))]

/-- The query parameter of `Exchange.fetch`:
`transactionId ? { transactionId } : undefined` (JavaScript truthiness:
`undefined` and `""` are falsy). -/
def exchangeFetchParams (transactionId : Option String) : Option Params :=
  match transactionId with
  | none => none
  | some t => if t = "" then none else some [("transactionId", .str t)]

/-- The well-known `anchor.web3.SystemProgram.programId`. -/
def systemProgramKey : PK := 1

/-- The well-known `anchor.web3.SYSVAR_RENT_PUBKEY`. -/
def rentKey : PK := 2

/-- `tx.recentBlockhash = (await connection.getRecentBlockhash()).blockhash;
tx.feePayer = provider.wallet.publicKey;` — the finalization pair every
wallet-submitting operation performs on its assembled transaction. -/
def M.finalizeTx (tx0 : Tx) : M Tx := do
  let bh ← M.call (fun w => w.blockhash)
  let c ← M.ask
  pure { tx0 with blockhash := some bh, feePayer := some c.walletKey }

/-- `const txid = await provider.wallet.sendTransaction(tx, connection);
await getConfirmTransaction(txid, connection);`. -/
def M.sendAndConfirm (tx : Tx) : M Nat := do
  let txid ← M.sendTx tx
  M.confirmTx txid
  pure txid

/-- `const txid = await provider.wallet.sendTransaction(tx, connection);
await connection.getParsedTransaction(txid, commitment);`. -/
def M.sendAndParse (tx : Tx) (c : String) : M Nat := do
  let txid ← M.sendTx tx
  M.parsedTx txid c
  pure txid

/-- An exported SDK operation whose whole body is wrapped in
`try { .. } catch`: its argument type, its body, and the value its
`catch` block returns. -/
structure Op : Type 1 where
  Arg : Type
  body : Arg → M Ret
  catchVal : Err → Ret

/-- Running an operation: the body under `try`, with the `catch` block
logging the error (`console.warn`/`console.log`/`console.error`) and
returning the operation's sentinel. -/
def Op.run (o : Op) (a : o.Arg) : M Ret :=
  M.tryCatch (o.body a) (fun e => fun _ => (.ok (o.catchVal e), [.logErr e]))

/-! ## The Hub module (`hubs.js`, first document of src/unnamed/part_001) -/

/-- `Hub.fetchAll(pagination, withAccountData)`:
`NinaClient.get('/hubs', { limit: limit || 20, offset: offset || 0,
sort: sort || 'desc' }, withAccountData)`. -/
def Hubs.fetchAll (pagination : Pagination) (withAccountData : Bool) : M RestVal :=
  M.ninaGet "/hubs" (some (paginationParams pagination)) withAccountData

/-- `Hub.fetch(publicKeyOrHandle, withAccountData)`. -/
def Hubs.fetch (publicKeyOrHandle : String) (withAccountData : Bool) : M RestVal :=
  M.ninaGet ("/hubs/" ++ publicKeyOrHandle) none withAccountData

/-- `Hub.fetchCollaborators(publicKeyOrHandle)`. -/
def Hubs.fetchCollaborators (publicKeyOrHandle : String) : M RestVal :=
  M.ninaGet ("/hubs/" ++ publicKeyOrHandle ++ "/collaborators") none false

/-- `Hub.fetchHubCollaborator(publicKeyOrHandle, collaboratorPubkey)`
(not exported, used by the collaborator-mutating operations). -/
def Hubs.fetchHubCollaborator (publicKeyOrHandle : String)
    (collaboratorPubkey : String) : M RestVal :=
  M.ninaGet ("/hubs/" ++ publicKeyOrHandle ++ "/collaborators/" ++ collaboratorPubkey)
    none false

/-- `Hub.fetchReleases(publicKeyOrHandle, withAccountData)`. -/
def Hubs.fetchReleases (publicKeyOrHandle : String) (withAccountData : Bool) : M RestVal :=
  M.ninaGet ("/hubs/" ++ publicKeyOrHandle ++ "/releases") none withAccountData

/-- `Hub.fetchPosts(publicKeyOrHandle, withAccountData)`. -/
def Hubs.fetchPosts (publicKeyOrHandle : String) (withAccountData : Bool) : M RestVal :=
  M.ninaGet ("/hubs/" ++ publicKeyOrHandle ++ "/posts") none withAccountData

/-- `Hub.fetchHubRelease(publicKeyOrHandle, hubReleasePublicKey, withAccountData)`. -/
def Hubs.fetchHubRelease (publicKeyOrHandle : String) (hubReleasePublicKey : String)
    (withAccountData : Bool) : M RestVal :=
  M.ninaGet ("/hubs/" ++ publicKeyOrHandle ++ "/hubReleases/" ++ hubReleasePublicKey)
    none withAccountData

/-- `Hub.fetchHubPost(publicKeyOrHandle, hubPostPublicKey, withAccountData)`. -/
def Hubs.fetchHubPost (publicKeyOrHandle : String) (hubPostPublicKey : String)
    (withAccountData : Bool) : M RestVal :=
  M.ninaGet ("/hubs/" ++ publicKeyOrHandle ++ "/hubPosts/" ++ hubPostPublicKey)
    none withAccountData

/-- `Hub.fetchSubscriptions(publicKeyOrHandle, withAccountData)`. -/
def Hubs.fetchSubscriptions (publicKeyOrHandle : String) (withAccountData : Bool) : M RestVal :=
  M.ninaGet ("/hubs/" ++ publicKeyOrHandle ++ "/subscriptions") none withAccountData

/-- A `publishFee`/`referralFee` field of the caller's `hubParams`
object: the JavaScript number the caller passed, or the `BN` the SDK
overwrites it with. -/
inductive FeeVal where
  | num (q : ℚ)
  | bn (n : Int)
deriving DecidableEq

/-- The numeric value of a fee field (a `BN` coerced back to a number
by `*`). -/
def FeeVal.toQ : FeeVal → ℚ
  | .num q => q
  | .bn n => (n : ℚ)

/-- The caller-supplied `hubParams` object of `hubInit` /
`hubInitWithCredit`. -/
structure HubParams where
  handle : String
  publishFee : FeeVal
  referralFee : FeeVal
  hubSignerBump : Option Nat
deriving DecidableEq

/-- `hubParams.publishFee = new anchor.BN(hubParams.publishFee * 10000);
hubParams.referralFee = new anchor.BN(hubParams.referralFee * 10000);`
— the in-place fee mutation both `hubInit` and `hubInitWithCredit`
perform on the caller's object. -/
def hubInitMutateFees (p : HubParams) : HubParams :=
  { p with
    publishFee := .bn (bnOfNum (p.publishFee.toQ * 10000)),
    referralFee := .bn (bnOfNum (p.referralFee.toQ * 10000)) }

/-- The program-derived addresses `hubInit` (and `hubInitWithCredit`)
computes: `hub` from `['nina-hub', handle]`, `hubSigner` (with bump)
from `['nina-hub-signer', hub]`, `hubCollaborator` from
`['nina-hub-collaborator', hub, wallet]`. -/
def Hubs.hubInitDerived (programId : PK) (handle : String) (walletKey : PK) :
    PK × PK × Nat × PK :=
  let hub := (findProgramAddress [.str "nina-hub", .str handle] programId).1
  let hs := findProgramAddress [.str "nina-hub-signer", .key hub] programId
  let collab := (findProgramAddress
    [.str "nina-hub-collaborator", .key hub, .key walletKey] programId).1
  (hub, hs.1, hs.2, collab)

/-- The state of the caller's `hubParams` object after `hubInit`
returns: unchanged if `client.useProgram()` threw before the mutation,
otherwise fees scaled to `BN`s and `hubSignerBump` set to the derived
bump. -/
def Hubs.hubInitParamsAfter (w : World) (p : HubParams) : HubParams :=
  match w.useProgram with
  | .error _ => p
  | .ok _ =>
    let p1 := hubInitMutateFees p
    { p1 with
      hubSignerBump := some (Hubs.hubInitDerived w.programId p1.handle w.walletKey).2.2.1 }

/-- The body of `hubInit(client, hubParams)`. -/
def Hubs.hubInitBody (p : HubParams) : M Ret := do
  let c ← M.ask
  M.call (fun w => w.useProgram)
  let p1 := hubInitMutateFees p
  let (hub, hubSigner, hubSignerBump, hubCollaborator) :=
    Hubs.hubInitDerived c.programId p1.handle c.walletKey
  let _p2 := { p1 with hubSignerBump := some hubSignerBump }
  let (_, usdcVaultIx) ← M.call (fun w => w.ata hubSigner w.ids.usdc)
  let (_, wrappedSolVaultIx) ← M.call (fun w => w.ata hubSigner w.ids.wsol)
  let tx0 : Tx :=
    { method := "hubInit",
      accounts :=
        [("authority", c.walletKey), ("hub", hub), ("hubSigner", hubSigner),
         ("hubCollaborator", hubCollaborator),
         ("hubCreditMint", c.ids.hubCredit),
         ("systemProgram", systemProgramKey),
         ("tokenProgram", c.ids.tokenProgram), ("rent", rentKey)],
      pre := [usdcVaultIx, wrappedSolVaultIx],
      remaining := [], signers := [], feePayer := none, blockhash := none }
  let tx ← M.finalizeTx tx0
  let _txid ← M.sendAndConfirm tx
  let createdHub ← Hubs.fetch (pkStr hub) false
  pure (.restVal createdHub)

/-- `hubInit` as an `Op`: the `catch` block only logs
(`console.warn(error)`), so a caught error returns `undefined`. -/
def Hubs.hubInitOp : Op :=
  { Arg := HubParams, body := Hubs.hubInitBody, catchVal := fun _ => .undefined }

/-- The body of `hubUpdateConfig(client, hubPubkey, uri, publishFee,
referralFee)`. -/
def Hubs.hubUpdateConfigBody (a : PK × String × ℚ × ℚ) : M Ret := do
  let (hubPubkey, _uri, _publishFee, _referralFee) := a
  let c ← M.ask
  M.call (fun w => w.useProgram)
  let _hubResp ← Hubs.fetch (pkStr hubPubkey) false
  let tx0 : Tx :=
    { method := "hubUpdateConfig",
      accounts := [("authority", c.walletKey), ("hub", hubPubkey)],
      pre := [], remaining := [], signers := [],
      feePayer := none, blockhash := none }
  let tx ← M.finalizeTx tx0
  let txid ← M.sendAndConfirm tx
  M.axiosGet (c.envApiEndpoint ++ "/hubs/" ++ pkStr hubPubkey ++ "/tx/" ++ toString txid)
  let updatedHub ← Hubs.fetch (pkStr hubPubkey) false
  pure (.restVal updatedHub)

/-- `hubUpdateConfig` as an `Op` (catch logs and returns `false`). -/
def Hubs.hubUpdateConfigOp : Op :=
  { Arg := PK × String × ℚ × ℚ, body := Hubs.hubUpdateConfigBody,
    catchVal := fun _ => .bool false }

/-- The body of `hubAddCollaborator(client, hubPubkey,
collaboratorPubkey, canAddContent, canAddCollaborator, allowance)`. -/
def Hubs.hubAddCollaboratorBody (a : PK × PK × Bool × Bool × Int) : M Ret := do
  let (hubPubkey, collaboratorPubkey, _canAddContent, _canAddCollaborator, _allowance) := a
  let c ← M.ask
  M.call (fun w => w.useProgram)
  let hubResp ← Hubs.fetch (pkStr hubPubkey) false
  let hubCollaborator := (findProgramAddress
    [.str "nina-hub-collaborator", .key hubPubkey, .key collaboratorPubkey]
    c.programId).1
  let authorityHubCollaborator := (findProgramAddress
    [.str "nina-hub-collaborator", .key hubPubkey, .key c.walletKey]
    c.programId).1
  let tx0 : Tx :=
    { method := "hubAddCollaborator",
      accounts :=
        [("authority", c.walletKey),
         ("authorityHubCollaborator", authorityHubCollaborator),
         ("hub", hubPubkey), ("hubCollaborator", hubCollaborator),
         ("collaborator", collaboratorPubkey),
         ("systemProgram", systemProgramKey), ("rent", rentKey)],
      pre := [], remaining := [], signers := [],
      feePayer := none, blockhash := none }
  let tx ← M.finalizeTx tx0
  let _txid ← M.sendAndConfirm tx
  M.axiosGet (c.apiEndpoint ++ "/hubs/" ++ pkStr hubPubkey ++ "/collaborators/"
    ++ pkStr hubCollaborator)
  let collaborator ← Hubs.fetchHubCollaborator hubResp.hubHandle (pkStr collaboratorPubkey)
  pure (.restVal collaborator)

/-- `hubAddCollaborator` as an `Op` (catch logs and returns `false`). -/
def Hubs.hubAddCollaboratorOp : Op :=
  { Arg := PK × PK × Bool × Bool × Int, body := Hubs.hubAddCollaboratorBody,
    catchVal := fun _ => .bool false }

/-- The body of `hubUpdateCollaboratorPermission(client, hubPubkey,
collaboratorPubkey, canAddContent, canAddCollaborator, allowance)`. -/
def Hubs.hubUpdateCollaboratorPermissionBody (a : PK × PK × Bool × Bool × Int) : M Ret := do
  let (hubPubkey, collaboratorPubkey, _canAddContent, _canAddCollaborator, _allowance) := a
  let c ← M.ask
  M.call (fun w => w.useProgram)
  let hubResp ← Hubs.fetch (pkStr hubPubkey) false
  let hubCollaborator := (findProgramAddress
    [.str "nina-hub-collaborator", .key hubPubkey, .key collaboratorPubkey]
    c.programId).1
  let authorityHubCollaborator := (findProgramAddress
    [.str "nina-hub-collaborator", .key hubPubkey, .key c.walletKey]
    c.programId).1
  let tx0 : Tx :=
    { method := "hubUpdateCollaboratorPermissions",
      accounts :=
        [("authority", c.walletKey),
         ("authorityHubCollaborator", authorityHubCollaborator),
         ("hub", hubPubkey), ("hubCollaborator", hubCollaborator),
         ("collaborator", collaboratorPubkey)],
      pre := [], remaining := [], signers := [],
      feePayer := none, blockhash := none }
  let tx ← M.finalizeTx tx0
  let _txid ← M.sendAndConfirm tx
  let collaborator ← Hubs.fetchHubCollaborator hubResp.hubHandle (pkStr collaboratorPubkey)
  pure (.restVal collaborator)

/-- `hubUpdateCollaboratorPermission` as an `Op`. -/
def Hubs.hubUpdateCollaboratorPermissionOp : Op :=
  { Arg := PK × PK × Bool × Bool × Int,
    body := Hubs.hubUpdateCollaboratorPermissionBody,
    catchVal := fun _ => .bool false }

/-- The body of `hubRemoveCollaborator(client, hubPubkey,
collaboratorPubkey)`. -/
def Hubs.hubRemoveCollaboratorBody (a : PK × PK) : M Ret := do
  let (hubPubkey, collaboratorPubkey) := a
  let c ← M.ask
  M.call (fun w => w.useProgram)
  let hubResp ← Hubs.fetch (pkStr hubPubkey) false
  let hubCollaborator := (findProgramAddress
    [.str "nina-hub-collaborator", .key hubPubkey, .key collaboratorPubkey]
    c.programId).1
  let tx0 : Tx :=
    { method := "hubRemoveCollaborator",
      accounts :=
        [("authority", c.walletKey), ("hub", hubPubkey),
         ("hubCollaborator", hubCollaborator),
         ("collaborator", collaboratorPubkey),
         ("systemProgram", systemProgramKey)],
      pre := [], remaining := [], signers := [],
      feePayer := none, blockhash := none }
  let tx ← M.finalizeTx tx0
  let _txid ← M.sendAndConfirm tx
  M.axiosGet (c.apiEndpoint ++ "/hubs/" ++ pkStr hubPubkey ++ "/collaborators/"
    ++ pkStr hubCollaborator)
  let collaborator ← Hubs.fetchHubCollaborator hubResp.hubHandle (pkStr collaboratorPubkey)
  pure (.restVal collaborator)

/-- `hubRemoveCollaborator` as an `Op`. -/
def Hubs.hubRemoveCollaboratorOp : Op :=
  { Arg := PK × PK, body := Hubs.hubRemoveCollaboratorBody,
    catchVal := fun _ => .bool false }

/-- The body of `hubContentToggleVisibility(client, hubPubkey,
contentAccountPubkey, type)`. -/
def Hubs.hubContentToggleVisibilityBody (a : PK × PK × String) : M Ret := do
  let (hubPubkey, contentAccountPubkey, ty) := a
  let c ← M.ask
  M.call (fun w => w.useProgram)
  let _hubResp ← Hubs.fetch (pkStr hubPubkey) false
  let hubContent := (findProgramAddress
    [.str "nina-hub-content", .key hubPubkey, .key contentAccountPubkey]
    c.programId).1
  let hubChildPublicKey := (findProgramAddress
    [.str ("nina-hub-" ++ ty.toLower), .key hubPubkey, .key contentAccountPubkey]
    c.programId).1
  let tx0 : Tx :=
    { method := "hubContentToggleVisibility",
      accounts :=
        [("authority", c.walletKey), ("hub", hubPubkey),
         ("hubContent", hubContent),
         ("contentAccount", contentAccountPubkey),
         ("systemProgram", systemProgramKey)],
      pre := [], remaining := [], signers := [],
      feePayer := none, blockhash := none }
  let tx ← M.finalizeTx tx0
  let txid ← M.sendTx tx
  M.parsedTx txid "finalized"
  pure (.key hubChildPublicKey)

/-- `hubContentToggleVisibility` as an `Op`. -/
def Hubs.hubContentToggleVisibilityOp : Op :=
  { Arg := PK × PK × String, body := Hubs.hubContentToggleVisibilityBody,
    catchVal := fun _ => .bool false }

/-- The body of `hubAddRelease(client, hubPubkey, releasePubkey,
fromHub)`.  When `fromHub` is truthy the source assigns
`request.remainingAccounts` but no `request` is in scope in this
function, so that path raises a `ReferenceError`. -/
def Hubs.hubAddReleaseBody (a : PK × PK × Option PK) : M Ret := do
  let (hubPubkey, releasePubkey, fromHub) := a
  let c ← M.ask
  M.call (fun w => w.useProgram)
  let _hubResp ← Hubs.fetch (pkStr hubPubkey) false
  let hubRelease := (findProgramAddress
    [.str "nina-hub-release", .key hubPubkey, .key releasePubkey] c.programId).1
  let hubContent := (findProgramAddress
    [.str "nina-hub-content", .key hubPubkey, .key releasePubkey] c.programId).1
  let hubCollaborator := (findProgramAddress
    [.str "nina-hub-collaborator", .key hubPubkey, .key c.walletKey] c.programId).1
  if fromHub.isSome then
    M.throw jsRefError
  else
    pure ()
  let tx0 : Tx :=
    { method := "hubAddRelease",
      accounts :=
        [("authority", c.walletKey), ("hub", hubPubkey),
         ("hubRelease", hubRelease), ("hubContent", hubContent),
         ("hubCollaborator", hubCollaborator),
         ("release", releasePubkey),
         ("systemProgram", systemProgramKey), ("rent", rentKey)],
      pre := [], remaining := [], signers := [],
      feePayer := none, blockhash := none }
  let tx ← M.finalizeTx tx0
  let _txid ← M.sendAndConfirm tx
  let hubReleaseData ← Hubs.fetchHubRelease (pkStr hubPubkey) (pkStr hubRelease) false
  pure (.restVal hubReleaseData)

/-- `hubAddRelease` as an `Op`. -/
def Hubs.hubAddReleaseOp : Op :=
  { Arg := PK × PK × Option PK, body := Hubs.hubAddReleaseBody,
    catchVal := fun _ => .bool false }

/-- The program-derived addresses `postInitViaHub` computes:
`post` from `['nina-post', hub, md5(slug).slice(0, 32)]`, `hubPost`,
`hubContent` and `hubCollaborator` from the usual seeds, and — when a
reference release is given — `referenceReleaseHubRelease` and
`referenceReleaseHubContent`. -/
def Hubs.postInitViaHubDerived (programId : PK) (hubPubkey : PK) (slug : String)
    (walletKey : PK) (referenceRelease : Option PK) :
    PK × PK × PK × PK × Option (PK × PK) :=
  let slugHash := (MD5 slug).take 32
  let post := (findProgramAddress
    [.str "nina-post", .key hubPubkey, .str slugHash] programId).1
  let hubPost := (findProgramAddress
    [.str "nina-hub-post", .key hubPubkey, .key post] programId).1
  let hubContent := (findProgramAddress
    [.str "nina-hub-content", .key hubPubkey, .key post] programId).1
  let hubCollaborator := (findProgramAddress
    [.str "nina-hub-collaborator", .key hubPubkey, .key walletKey] programId).1
  let refPair := referenceRelease.map fun rr =>
    ((findProgramAddress
        [.str "nina-hub-release", .key hubPubkey, .key rr] programId).1,
     (findProgramAddress
        [.str "nina-hub-content", .key hubPubkey, .key rr] programId).1)
  (post, hubPost, hubContent, hubCollaborator, refPair)

/-- The body of `postInitViaHub(client, hubPubkey, slug, uri,
referenceRelease, fromHub)`. -/
def Hubs.postInitViaHubBody (a : PK × String × String × Option PK × Option PK) : M Ret := do
  let (hubPubkey, slug, _uri, referenceRelease, fromHub) := a
  let c ← M.ask
  M.call (fun w => w.useProgram)
  let _hubResp ← Hubs.fetch (pkStr hubPubkey) false
  let (post, hubPost, hubContent, hubCollaborator, refPair) :=
    Hubs.postInitViaHubDerived c.programId hubPubkey slug c.walletKey referenceRelease
  let baseAccounts :=
    [("author", c.walletKey), ("hub", hubPubkey), ("post", post),
     ("hubPost", hubPost), ("hubContent", hubContent),
     ("hubCollaborator", hubCollaborator),
     ("systemProgram", systemProgramKey), ("rent", rentKey)]
  let remaining := match fromHub with
    | some fh => [fh]
    | none => []
  let tx0 : Tx :=
    match referenceRelease, refPair with
    | some rr, some (refHubRelease, refHubContent) =>
      { method := "postInitViaHubWithReferenceRelease",
        accounts := baseAccounts ++
          [("referenceRelease", rr),
           ("referenceReleaseHubRelease", refHubRelease),
           ("referenceReleaseHubContent", refHubContent)],
        pre := [], remaining := remaining, signers := [],
        feePayer := none, blockhash := none }
    | _, _ =>
      { method := "postInitViaHub",
        accounts := baseAccounts,
        pre := [], remaining := remaining, signers := [],
        feePayer := none, blockhash := none }
  let tx ← M.finalizeTx tx0
  let _txid ← M.sendAndConfirm tx
  pure (.postInitRet hubPost (refPair.map Prod.fst))

/-- `postInitViaHub` as an `Op`. -/
def Hubs.postInitViaHubOp : Op :=
  { Arg := PK × String × String × Option PK × Option PK,
    body := Hubs.postInitViaHubBody, catchVal := fun _ => .bool false }

/-- The body of `postUpdateViaHub(client, hubPubkey, slug, uri)`.  This
function derives `post` (from the raw slug), `hubPost` and
`hubCollaborator` and then evaluates `hub.handle` — but no `hub` is in
scope in this function, so every run raises a `ReferenceError` before a
transaction is built. -/
def Hubs.postUpdateViaHubBody (a : PK × String × String) : M Ret := do
  let (hubPubkey, slug, _uri) := a
  let c ← M.ask
  M.call (fun w => w.useProgram)
  let post := (findProgramAddress
    [.str "nina-post", .key hubPubkey, .str slug] c.programId).1
  let _hubPost := (findProgramAddress
    [.str "nina-hub-post", .key hubPubkey, .key post] c.programId).1
  let _hubCollaborator := (findProgramAddress
    [.str "nina-hub-collaborator", .key hubPubkey, .key c.walletKey] c.programId).1
  M.throw jsRefError

/-- `postUpdateViaHub` as an `Op`. -/
def Hubs.postUpdateViaHubOp : Op :=
  { Arg := PK × String × String, body := Hubs.postUpdateViaHubBody,
    catchVal := fun _ => .bool false }

/-- The body of `collectRoyaltyForReleaseViaHub(client, releasePubkey,
hubPubkey, slug, uri)` (the trailing `slug`/`uri` parameters are
unused). -/
def Hubs.collectRoyaltyForReleaseViaHubBody (a : PK × PK) : M Ret := do
  let (releasePubkey, hubPubkey) := a
  let c ← M.ask
  M.call (fun w => w.useProgram)
  let hub ← M.call (fun w => w.hubAccount hubPubkey)
  let release ← M.call (fun w => w.releaseAccount releasePubkey)
  let _hubMetadata ← Hubs.fetch (pkStr hubPubkey) false
  let recipient := release.royaltyRecipients.find? (fun r => r = hub.hubSigner)
  let (hubWallet, _) ← M.call (fun w => w.ata hub.hubSigner release.paymentMint)
  let hubRelease := (findProgramAddress
    [.str "nina-hub-release", .key hubPubkey, .key releasePubkey] c.programId).1
  let tx0 : Tx :=
    { method := "releaseRevenueShareCollectViaHub",
      accounts :=
        [("authority", c.walletKey),
         ("royaltyTokenAccount", release.royaltyTokenAccount),
         ("release", releasePubkey),
         ("releaseSigner", release.releaseSigner),
         ("releaseMint", release.releaseMint),
         ("hub", hubPubkey), ("hubRelease", hubRelease),
         ("hubSigner", hub.hubSigner), ("hubWallet", hubWallet),
         ("tokenProgram", c.ids.tokenProgram)],
      pre := [], remaining := [], signers := [],
      feePayer := none, blockhash := none }
  let tx ← M.finalizeTx tx0
  let _txid ← M.sendAndConfirm tx
  pure (.collectViaHubRet hubRelease recipient release.paymentMint)

/-- `collectRoyaltyForReleaseViaHub` as an `Op`. -/
def Hubs.collectRoyaltyForReleaseViaHubOp : Op :=
  { Arg := PK × PK, body := Hubs.collectRoyaltyForReleaseViaHubBody,
    catchVal := fun _ => .bool false }

/-- The body of `hubWithdraw(client, hubPubkey)`.  Reading
`tokenAccounts.value[0]` on an empty result raises a `TypeError`. -/
def Hubs.hubWithdrawBody (hubPubkey : PK) : M Ret := do
  let c ← M.ask
  M.call (fun w => w.useProgram)
  let hubResp ← Hubs.fetch (pkStr hubPubkey) false
  let hubSigner := (findProgramAddress
    [.str "nina-hub-signer", .key hubPubkey] c.programId).1
  let (withdrawTarget, _) ← M.call (fun w => w.ata hubSigner w.ids.usdc)
  let (withdrawDestination, _) ← M.call (fun w => w.ata w.walletKey w.ids.usdc)
  let amounts ← M.call (fun w => w.tokenAccounts hubSigner w.ids.usdc)
  let _withdrawAmount ← match amounts with
    | [] => M.throw jsRefError
    | amt :: _ => pure amt
  let _ := hubResp.hubHandle
  let tx0 : Tx :=
    { method := "hubWithdraw",
      accounts :=
        [("authority", c.walletKey), ("hub", hubPubkey),
         ("hubSigner", hubSigner),
         ("withdrawTarget", withdrawTarget),
         ("withdrawDestination", withdrawDestination),
         ("withdrawMint", c.ids.usdc),
         ("tokenProgram", c.ids.tokenProgram)],
      pre := [], remaining := [], signers := [],
      feePayer := none, blockhash := none }
  let tx ← M.finalizeTx tx0
  let _txid ← M.sendAndConfirm tx
  pure (.bool true)

/-- `hubWithdraw` as an `Op`. -/
def Hubs.hubWithdrawOp : Op :=
  { Arg := PK, body := Hubs.hubWithdrawBody, catchVal := fun _ => .bool false }

/-! ## The Exchange module (`exchanges.js`, second document of
src/unnamed/part_001) -/

/-- `Exchange.fetchAll(pagination, withAccountData)`. -/
def Exchanges.fetchAll (pagination : Pagination) (withAccountData : Bool) : M RestVal :=
  M.ninaGet "/exchanges" (some (paginationParams pagination)) withAccountData

/-- `Exchange.fetch(publicKey, withAccountData, transactionId)`:
`NinaClient.get('/exchanges/' + publicKey,
transactionId ? { transactionId } : undefined, withAccountData)`. -/
def Exchanges.fetch (publicKey : String) (withAccountData : Bool)
    (transactionId : Option String) : M RestVal :=
  M.ninaGet ("/exchanges/" ++ publicKey) (exchangeFetchParams transactionId)
    withAccountData

/-- The amounts and mints `exchangeInit` puts in its config and account
list: selling an edition sends the release mint for the payment mint
with `initializerAmount` 1; buying sends the payment mint for the
release mint with `expectedAmount` 1. -/
structure ExchangePlan where
  expectedAmount : Int
  initializerAmount : Int
  initializerSendingMint : PK
  initializerExpectedMint : PK
deriving DecidableEq

/-- The `isSelling` branch of `exchangeInit` assigning
`expectedAmount`, `initializerAmount`, `initializerSendingMint` and
`initializerExpectedMint`. -/
def Exchanges.exchangeInitPlan (isSelling : Bool) (amount : Int)
    (releaseMint paymentMint : PK) : ExchangePlan :=
  if isSelling then
    { expectedAmount := amount, initializerAmount := 1,
      initializerSendingMint := releaseMint,
      initializerExpectedMint := paymentMint }
  else
    { expectedAmount := 1, initializerAmount := amount,
      initializerSendingMint := paymentMint,
      initializerExpectedMint := releaseMint }

/-- The body of `exchangeInit(client, amount, isSelling,
releasePublicKey)`.  In the `isSol(paymentMint) && !isSelling` branch
the source calls `wrapSol`, which `exchanges.js` never imports, raising
a `ReferenceError`. -/
def Exchanges.exchangeInitBody (a : Int × Bool × PK) : M Ret := do
  let (amount, isSelling, releasePublicKey) := a
  let c ← M.ask
  M.call (fun w => w.useProgram)
  let releaseAccount ← M.call (fun w => w.releaseAccount releasePublicKey)
  let releaseMint := releaseAccount.releaseMint
  let plan := Exchanges.exchangeInitPlan isSelling amount releaseMint
    releaseAccount.paymentMint
  let exchange := c.freshKey 0
  let (exchangeSigner, _bump) := findProgramAddress [.key exchange] c.programId
  let (initializerSendingTokenAccount, initializerSendingTokenAccountIx) ←
    M.call (fun w => w.ata w.walletKey plan.initializerSendingMint)
  let (exchangeEscrowTokenAccount, exchangeEscrowTokenAccountIx) ←
    M.call (fun w => w.ata exchangeSigner plan.initializerSendingMint)
  let (initializerExpectedTokenAccount, initializerExpectedTokenAccountIx) ←
    M.call (fun w => w.ata w.walletKey plan.initializerExpectedMint)
  let exchangeCreateIx ← M.call (fun w => w.createAccountIx exchange)
  let ixs0 : List (Option Nat) := [some exchangeCreateIx, exchangeEscrowTokenAccountIx]
  let ixs1 := ixs0 ++ (match initializerExpectedTokenAccountIx with
    | some ix => [some ix]
    | none => [])
  let ixs2 := ixs1 ++ (match initializerSendingTokenAccountIx with
    | some ix => [some ix]
    | none => [])
  if c.isSol releaseAccount.paymentMint && !isSelling then
    M.throw jsRefError
  else
    pure ()
  let tx0 : Tx :=
    { method := "exchangeInit",
      accounts :=
        [("initializer", c.walletKey), ("releaseMint", releaseMint),
         ("initializerExpectedTokenAccount", initializerExpectedTokenAccount),
         ("initializerSendingTokenAccount", initializerSendingTokenAccount),
         ("initializerExpectedMint", plan.initializerExpectedMint),
         ("initializerSendingMint", plan.initializerSendingMint),
         ("exchangeEscrowTokenAccount", exchangeEscrowTokenAccount),
         ("exchangeSigner", exchangeSigner),
         ("exchange", exchange), ("release", releasePublicKey),
         ("systemProgram", systemProgramKey),
         ("tokenProgram", c.ids.tokenProgram), ("rent", rentKey)],
      pre := ixs2, remaining := [], signers := [exchange],
      feePayer := none, blockhash := none }
  let tx ← M.finalizeTx tx0
  let txid ← M.sendTx tx
  M.parsedTx txid "confirmed"
  pure (.exchangeInitRet txid releaseAccount exchange releaseMint)

/-- `exchangeInit` as an `Op` (catch does `console.error(err)` and
returns `false`). -/
def Exchanges.exchangeInitOp : Op :=
  { Arg := Int × Bool × PK, body := Exchanges.exchangeInitBody,
    catchVal := fun _ => .bool false }

/-- The `exchange` argument of `exchangeAccept`/`exchangeCancel`: a
plain object (from the REST API) with the fields those functions
read. -/
structure ExchangeArg where
  publicKey : PK
  isSelling : Bool
  expectedAmount : Int
deriving DecidableEq

/-- The body of `exchangeAccept(client, exchange, releasePublicKey)`.
In the `isSol(release.paymentMint) && exchange.isSelling` branch the
source calls `wrapSol`, which `exchanges.js` never imports, raising a
`ReferenceError`. -/
def Exchanges.exchangeAcceptBody (a : ExchangeArg × PK) : M Ret := do
  let (exchange, releasePublicKey) := a
  let c ← M.ask
  M.call (fun w => w.useProgram)
  let release ← M.call (fun w => w.releaseAccount releasePublicKey)
  let exchangeAccount ← M.call (fun w => w.exchangeAccount exchange.publicKey)
  let (takerSendingTokenAccount, takerSendingTokenAccountIx) ←
    M.call (fun w => w.ata w.walletKey exchangeAccount.initializerExpectedMint)
  let (takerExpectedTokenAccount, takerExpectedTokenAccountIx) ←
    M.call (fun w => w.ata w.walletKey exchangeAccount.initializerSendingMint)
  let (initializerExpectedTokenAccount, initializerExpectedTokenAccountIx) ←
    M.call (fun w => w.ata exchangeAccount.initializer
      exchangeAccount.initializerExpectedMint)
  let exchangeHistory := c.freshKey 0
  let createExchangeHistoryIx ← M.call (fun w => w.createAccountIx exchangeHistory)
  let ixs0 : List (Option Nat) := [some createExchangeHistoryIx]
  let ixs1 := ixs0 ++ (match takerSendingTokenAccountIx with
    | some ix => [some ix]
    | none => [])
  let ixs2 := ixs1 ++ (match takerExpectedTokenAccountIx with
    | some ix => [some ix]
    | none => [])
  let ixs3 := ixs2 ++ (match initializerExpectedTokenAccountIx with
    | some ix => [some ix]
    | none => [])
  if c.isSol release.paymentMint && exchange.isSelling then
    M.throw jsRefError
  else
    pure ()
  let tx0 : Tx :=
    { method := "exchangeAccept",
      accounts :=
        [("initializer", exchangeAccount.initializer),
         ("initializerExpectedTokenAccount", initializerExpectedTokenAccount),
         ("takerExpectedTokenAccount", takerExpectedTokenAccount),
         ("takerSendingTokenAccount", takerSendingTokenAccount),
         ("exchangeEscrowTokenAccount", exchangeAccount.exchangeEscrowTokenAccount),
         ("exchangeSigner", exchangeAccount.exchangeSigner),
         ("taker", c.walletKey), ("exchange", exchange.publicKey),
         ("exchangeHistory", exchangeHistory),
         ("release", releasePublicKey),
         ("royaltyTokenAccount", release.royaltyTokenAccount),
         ("tokenProgram", c.ids.tokenProgram),
         ("systemProgram", systemProgramKey), ("rent", rentKey)],
      pre := ixs3, remaining := [], signers := [exchangeHistory],
      feePayer := none, blockhash := none }
  let tx ← M.finalizeTx tx0
  let txid ← M.sendTx tx
  M.parsedTx txid "finalized"
  pure (.txidRet txid)

/-- `exchangeAccept` as an `Op` (catch does `console.error(err)` and
returns `false`). -/
def Exchanges.exchangeAcceptOp : Op :=
  { Arg := ExchangeArg × PK, body := Exchanges.exchangeAcceptBody,
    catchVal := fun _ => .bool false }

/-- `exchangeCancel(client, exchange, releasePublicKey)`.  Unlike every
other transaction-submitting function of the SDK, its body is NOT
wrapped in `try { .. } catch`: any exception propagates to the
caller. -/
def Exchanges.exchangeCancel (a : ExchangeArg × PK) : M Ret := do
  let (exchangeArg, _releasePublicKey) := a
  let exchangePubkey := exchangeArg.publicKey
  let c ← M.ask
  M.call (fun w => w.useProgram)
  let exchange ← M.call (fun w => w.exchangeAccount exchangePubkey)
  let (initializerReturnTokenAccount, initializerReturnTokenAccountIx) ←
    M.call (fun w => w.ata w.walletKey exchange.initializerSendingMint)
  let pre : List (Option Nat) := match initializerReturnTokenAccountIx with
    | some ix => [some ix]
    | none => []
  let _params : Int := if exchange.isSelling then 1 else exchange.initializerAmount
  let method := if c.isSol exchange.initializerSendingMint
    then "exchangeCancelSol" else "exchangeCancel"
  let tx0 : Tx :=
    { method := method,
      accounts :=
        [("initializer", c.walletKey),
         ("initializerSendingTokenAccount", initializerReturnTokenAccount),
         ("exchangeEscrowTokenAccount", exchange.exchangeEscrowTokenAccount),
         ("exchangeSigner", exchange.exchangeSigner),
         ("exchange", exchangePubkey),
         ("tokenProgram", c.ids.tokenProgram)],
      pre := pre, remaining := [], signers := [],
      feePayer := none, blockhash := none }
  let tx ← M.finalizeTx tx0
  let txid ← M.sendTx tx
  M.parsedTx txid "confirmed"
  pure (.exchangeCancelRet exchangePubkey txid)

/-! ## The Release module (`src/resources/releases.js`) -/

/-- `const MAX_INT = '18446744073709551615'` — the decimal string the
`BN` constructor parses to `2^64 - 1`. -/
def MAX_INT : Int := 18446744073709551615

/-- `Release.fetchAll(pagination, withAccountData)`. -/
def Releases.fetchAll (pagination : Pagination) (withAccountData : Bool) : M RestVal :=
  M.ninaGet "/releases" (some (paginationParams pagination)) withAccountData

/-- `Release.fetch(publicKey, withAccountData)`. -/
def Releases.fetch (publicKey : String) (withAccountData : Bool) : M RestVal :=
  M.ninaGet ("/releases/" ++ publicKey) none withAccountData

/-- `Release.fetchCollectors(publicKey, withCollection)`. -/
def Releases.fetchCollectors (publicKey : String) (withCollection : Bool) : M RestVal :=
  M.ninaGet ("/releases/" ++ publicKey ++ "/collectors"
    ++ (if withCollection then "?withCollection=true" else "")) none false

/-- `Release.fetchHubs(publicKey, withAccountData)`. -/
def Releases.fetchHubs (publicKey : String) (withAccountData : Bool) : M RestVal :=
  M.ninaGet ("/releases/" ++ publicKey ++ "/hubs") none withAccountData

/-- `Release.fetchExchanges(publicKey, withAccountData, pagination)`. -/
def Releases.fetchExchanges (publicKey : String) (withAccountData : Bool)
    (pagination : Option Params) : M RestVal :=
  M.ninaGet ("/releases/" ++ publicKey ++ "/exchanges") pagination withAccountData

/-- `Release.fetchRevenueShareRecipients(publicKey, withAccountData)`. -/
def Releases.fetchRevenueShareRecipients (publicKey : String)
    (withAccountData : Bool) : M RestVal :=
  M.ninaGet ("/releases/" ++ publicKey ++ "/revenueShareRecipients") none withAccountData

/-- The `axios.post` loop of `purchaseViaHub`'s swap branch: one POST to
the Jupiter swap API per quoted route. -/
def M.postRoutes : List Nat → M Unit
  | [] => M.pureM ()
  | r :: rs => do
      (fun w => (w.jupSwapPost r,
        [Event.axiosPost ("https://quote-api.jup.ag/v1/swap#" ++ toString r)]) : M Unit)
      M.postRoutes rs

/-- The body of `purchaseViaHub(client, releasePublicKey, hubPublicKey)`.

Two latent slips shape the control flow.  In the insufficient-USDC
branch, after the Jupiter quote/swap calls the source spreads
`transactionInstructions` (a `TypeError` when no route was returned) and
then — `instructions` being non-empty because of the compute-budget
instruction — assigns `request.instructions`, but no `request` is in
scope in this function (`ReferenceError`); either way the branch always
throws after its HTTP calls (so the route-selection fold is not
observable and is not modelled further).  Outside that branch the same
`request.instructions` line throws whenever
`receiverReleaseTokenAccountIx` exists. -/
def Releases.purchaseViaHubBody (a : PK × PK) : M Ret := do
  let (releasePublicKey, hubPublicKey) := a
  let c ← M.ask
  M.call (fun w => w.useProgram)
  let release ← M.call (fun w => w.releaseAccount releasePublicKey)
  let (payerTokenAccount, _) ← M.call (fun w => w.ata w.walletKey release.paymentMint)
  let (receiverReleaseTokenAccount, receiverReleaseTokenAccountIx) ←
    M.call (fun w => w.ata w.walletKey release.releaseMint)
  let hub ← M.call (fun w => w.hubAccount hubPublicKey)
  let hubRelease := (findProgramAddress
    [.str "nina-hub-release", .key hubPublicKey, .key releasePublicKey] c.programId).1
  let hubContent := (findProgramAddress
    [.str "nina-hub-content", .key hubPublicKey, .key releasePublicKey] c.programId).1
  let hubSigner := (findProgramAddress
    [.str "nina-hub-signer", .key hubPublicKey] c.programId).1
  let (hubWallet, _) ← M.call (fun w => w.ata hubSigner release.paymentMint)
  let solPrice ← (fun w => (w.solPrice,
    [Event.axiosGet "https://price.jup.ag/v1/price?id=SOL"]) : M ℚ)
  let releasePriceUi : ℚ := (release.price : ℚ) / 1000000
  let convertAmount : ℚ :=
    releasePriceUi + releasePriceUi * (hub.referralFee : ℚ) / 1000000
  let usdcBalance ← M.call (fun w => w.usdcBalance)
  if usdcBalance < convertAmount then do
    let convertAmount2 := convertAmount - usdcBalance
    let amt := mathRound
      (((convertAmount2 + convertAmount2 * (1/100)) / solPrice) * 1000000000)
    let routes ← (fun w => (w.jupQuote amt,
      [Event.axiosGet ("https://quote-api.jup.ag/v1/quote?amount=" ++ toString amt)]) :
      M (List Nat))
    M.postRoutes routes
    M.throw jsRefError
  else
    pure ()
  if receiverReleaseTokenAccountIx.isSome then
    M.throw jsRefError
  else
    pure ()
  let tx0 : Tx :=
    { method := "releasePurchaseViaHub",
      accounts :=
        [("payer", c.walletKey), ("receiver", c.walletKey),
         ("release", releasePublicKey),
         ("releaseSigner", release.releaseSigner),
         ("payerTokenAccount", payerTokenAccount),
         ("receiverReleaseTokenAccount", receiverReleaseTokenAccount),
         ("royaltyTokenAccount", release.royaltyTokenAccount),
         ("releaseMint", release.releaseMint),
         ("hub", hubPublicKey), ("hubRelease", hubRelease),
         ("hubContent", hubContent), ("hubSigner", hubSigner),
         ("hubWallet", hubWallet),
         ("tokenProgram", c.ids.tokenProgram)],
      pre := [], remaining := [], signers := [],
      feePayer := none, blockhash := none }
  let tx ← M.finalizeTx tx0
  let txid ← M.sendAndConfirm tx
  M.axiosGet (c.apiEndpoint ++ "/accounts/" ++ pkStr c.walletKey
    ++ "/collected?txId=" ++ toString txid)
  let newRelease ← Releases.fetch (pkStr releasePublicKey) true
  pure (.releaseWrap newRelease)

/-- `purchaseViaHub` as an `Op` (catch does `console.warn(error)` and
returns `{ error }`). -/
def Releases.purchaseViaHubOp : Op :=
  { Arg := PK × PK, body := Releases.purchaseViaHubBody,
    catchVal := fun e => .errWrap e }

/-- The body of `releasePurchase(client, releasePublicKey)`.

Latent slips shape the control flow: the free-release guard compares
`release.price.toNumber` (the method itself, not a call) with `0`, so
the guard is never taken; the `isSol` branch calls `wrapSol`, which
`releases.js` never imports (`ReferenceError`); and after confirmation
the source reads `endpoints.api`, but `endpoints` was never destructured
in this function (`ReferenceError`), so no run reaches the re-fetch or
the normal return. -/
def Releases.releasePurchaseBody (releasePublicKey : PK) : M Ret := do
  let c ← M.ask
  M.call (fun w => w.useProgram)
  let release ← M.call (fun w => w.releaseAccount releasePublicKey)
  let (payerTokenAccount, _) ← M.call (fun w => w.ata w.walletKey release.paymentMint)
  let (receiverReleaseTokenAccount, receiverReleaseTokenAccountIx) ←
    M.call (fun w => w.ata w.walletKey release.releaseMint)
  let pre : List (Option Nat) := match receiverReleaseTokenAccountIx with
    | some ix => [some ix]
    | none => []
  if c.isSol release.paymentMint then
    M.throw jsRefError
  else
    pure ()
  let tx0 : Tx :=
    { method := "releasePurchase",
      accounts :=
        [("payer", c.walletKey), ("receiver", c.walletKey),
         ("release", releasePublicKey),
         ("releaseSigner", release.releaseSigner),
         ("payerTokenAccount", payerTokenAccount),
         ("receiverReleaseTokenAccount", receiverReleaseTokenAccount),
         ("royaltyTokenAccount", release.royaltyTokenAccount),
         ("releaseMint", release.releaseMint),
         ("tokenProgram", c.ids.tokenProgram)],
      pre := pre, remaining := [], signers := [],
      feePayer := none, blockhash := none }
  let tx ← M.finalizeTx tx0
  let _txid ← M.sendAndConfirm tx
  M.throw jsRefError

/-- `releasePurchase` as an `Op` (catch returns `{ error }`). -/
def Releases.releasePurchaseOp : Op :=
  { Arg := PK, body := Releases.releasePurchaseBody,
    catchVal := fun e => .errWrap e }

/-- The release config both `releaseInit` and `releaseInitViaHub` send
on-chain: `editionAmount = isOpen ? MAX_INT : amount` and
`{ amountTotalSupply: BN(editionAmount), amountToArtistTokenAccount:
BN(0), amountToVaultTokenAccount: BN(0), resalePercentage:
BN(resalePercentage * 10000), price: BN(uiToNative(retailPrice,
paymentMint)), releaseDatetime: BN(Date.now() / 1000) }`. -/
structure ReleaseConfig where
  amountTotalSupply : Int
  amountToArtistTokenAccount : Int
  amountToVaultTokenAccount : Int
  resalePercentage : Int
  price : Int
  releaseDatetime : Int
deriving DecidableEq

/-- Builds the config of `releaseInit` / `releaseInitViaHub`
(`priceNative` is the already-converted `uiToNative(retailPrice,
paymentMint)` value). -/
def Releases.releaseInitConfig (isOpen : Bool) (amount : Int)
    (resalePercentage : ℚ) (priceNative : Int) (nowMs : ℚ) : ReleaseConfig :=
  let editionAmount : Int := if isOpen then MAX_INT else amount
  { amountTotalSupply := editionAmount,
    amountToArtistTokenAccount := 0,
    amountToVaultTokenAccount := 0,
    resalePercentage := bnOfNum (resalePercentage * 10000),
    price := priceNative,
    releaseDatetime := bnOfNum (nowMs / 1000) }

/-- The arguments of `releaseInitViaHub`. -/
structure ReleaseInitViaHubArgs where
  hubPublicKey : PK
  retailPrice : ℚ
  amount : Int
  resalePercentage : ℚ
  isUsdc : Bool
  metadataUri : String
  artist : String
  title : String
  catalogNumber : String
  release : PK
  releaseBump : Nat
  releaseMint : PK
  isOpen : Bool
deriving DecidableEq

/-- The body of `releaseInitViaHub(client, hubPublicKey, retailPrice,
amount, resalePercentage, isUsdc, metadataUri, artist, title,
catalogNumber, release, releaseBump, releaseMint, isOpen)`. -/
def Releases.releaseInitViaHubBody (a : ReleaseInitViaHubArgs) : M Ret := do
  let c ← M.ask
  M.call (fun w => w.useProgram)
  let _hub ← M.call (fun w => w.hubAccount a.hubPublicKey)
  let paymentMint := if a.isUsdc then c.ids.usdc else c.ids.wsol
  let (releaseSigner, _releaseSignerBump) :=
    findProgramAddress [.key a.release] c.programId
  let releaseMintIx ← M.call (fun w => w.mintIxs a.releaseMint)
  let (authorityTokenAccount, authorityTokenAccountIx) ←
    M.call (fun w => w.ata w.walletKey paymentMint)
  let (royaltyTokenAccount, royaltyTokenAccountIx) ←
    M.call (fun w => w.ata releaseSigner paymentMint)
  let hubCollaborator := (findProgramAddress
    [.str "nina-hub-collaborator", .key a.hubPublicKey, .key c.walletKey]
    c.programId).1
  let hubSigner := (findProgramAddress
    [.str "nina-hub-signer", .key a.hubPublicKey] c.programId).1
  let hubRelease := (findProgramAddress
    [.str "nina-hub-release", .key a.hubPublicKey, .key a.release] c.programId).1
  let hubContent := (findProgramAddress
    [.str "nina-hub-content", .key a.hubPublicKey, .key a.release] c.programId).1
  let (hubWallet, _) ← M.call (fun w => w.ata hubSigner paymentMint)
  let ixs0 : List (Option Nat) := releaseMintIx.map some ++ [royaltyTokenAccountIx]
  let ixs1 := ixs0 ++ (match authorityTokenAccountIx with
    | some ix => [some ix]
    | none => [])
  let _config := Releases.releaseInitConfig a.isOpen a.amount a.resalePercentage
    (c.uiToNative a.retailPrice paymentMint) c.nowMs
  let metadata := (findProgramAddress
    [.str "metadata", .key c.ids.metaplex, .key a.releaseMint] c.ids.metaplex).1
  let tx0 : Tx :=
    { method := "releaseInitViaHub",
      accounts :=
        [("authority", c.walletKey), ("release", a.release),
         ("releaseSigner", releaseSigner),
         ("hubCollaborator", hubCollaborator),
         ("hub", a.hubPublicKey), ("hubRelease", hubRelease),
         ("hubContent", hubContent), ("hubSigner", hubSigner),
         ("hubWallet", hubWallet), ("releaseMint", a.releaseMint),
         ("authorityTokenAccount", authorityTokenAccount),
         ("paymentMint", paymentMint),
         ("royaltyTokenAccount", royaltyTokenAccount),
         ("tokenProgram", c.ids.tokenProgram),
         ("metadata", metadata), ("metadataProgram", c.ids.metaplex),
         ("systemProgram", systemProgramKey), ("rent", rentKey)],
      pre := ixs1, remaining := [], signers := [],
      feePayer := none, blockhash := none }
  let tx1 ← M.finalizeTx tx0
  let tx := { tx1 with signers := tx1.signers ++ [a.releaseMint] }
  let _txid ← M.sendAndConfirm tx
  let createdRelease ← Hubs.fetchHubRelease (pkStr a.hubPublicKey) (pkStr hubRelease) false
  pure (.releaseWrap createdRelease)

/-- `releaseInitViaHub` as an `Op` (catch returns `{ error }`). -/
def Releases.releaseInitViaHubOp : Op :=
  { Arg := ReleaseInitViaHubArgs, body := Releases.releaseInitViaHubBody,
    catchVal := fun e => .errWrap e }

/-- The program-derived addresses `initializeReleaseAndMint` computes:
a fresh `releaseMint` keypair is generated, `release` (with bump) is
derived from `['nina-release', releaseMint.publicKey]`, and — when a
hub key is given — `hubRelease` from
`['nina-hub-release', hubPublicKey, release]`. -/
def Releases.initReleaseAndMintDerived (programId : PK) (mintKey : PK)
    (hubPublicKey : Option PK) : PK × Nat × Option PK :=
  let rel := findProgramAddress [.str "nina-release", .key mintKey] programId
  let hubRelease := hubPublicKey.map fun h =>
    (findProgramAddress [.str "nina-hub-release", .key h, .key rel.1] programId).1
  (rel.1, rel.2, hubRelease)

/-- The body of `initializeReleaseAndMint(client, hubPublicKey)` (the
name is kept as `initReleaseAndMint` here).  This helper is declared
without `export` in `releases.js`. -/
def Releases.initReleaseAndMintBody (hubPublicKey : Option PK) : M Ret := do
  let c ← M.ask
  M.call (fun w => w.useProgram)
  let releaseMint := c.freshKey 0
  let (release, releaseBump, hubRelease) :=
    Releases.initReleaseAndMintDerived c.programId releaseMint hubPublicKey
  pure (.initMintRet release releaseBump releaseMint hubRelease)

/-- `initializeReleaseAndMint` as an `Op` (catch does
`console.warn(error)` and returns `false`). -/
def Releases.initReleaseAndMintOp : Op :=
  { Arg := Option PK, body := Releases.initReleaseAndMintBody,
    catchVal := fun _ => .bool false }

/-- The arguments of `releaseInit`. -/
structure ReleaseInitArgs where
  retailPrice : ℚ
  amount : Int
  resalePercentage : ℚ
  artist : String
  title : String
  catalogNumber : String
  metadataUri : String
  isUsdc : Bool
  release : PK
  releaseBump : Nat
  releaseMint : PK
  isOpen : Bool
deriving DecidableEq

/-- The body of `releaseInit(client, retailPrice, amount,
resalePercentage, artist, title, catalogNumber, metadataUri, isUsdc,
release, releaseBump, releaseMint, isOpen)`. -/
def Releases.releaseInitBody (a : ReleaseInitArgs) : M Ret := do
  let c ← M.ask
  M.call (fun w => w.useProgram)
  let paymentMint := if a.isUsdc then c.ids.usdc else c.ids.wsol
  let publishingCreditMint := c.ids.publishingCredit
  let (releaseSigner, _releaseSignerBump) :=
    findProgramAddress [.key a.release] c.programId
  let releaseMintIx ← M.call (fun w => w.mintIxs a.releaseMint)
  let (authorityTokenAccount, authorityTokenAccountIx) ←
    M.call (fun w => w.ata w.walletKey paymentMint)
  let (royaltyTokenAccount, royaltyTokenAccountIx) ←
    M.call (fun w => w.ata releaseSigner paymentMint)
  let (_authorityPublishingCreditTokenAccount, authorityPublishingCreditTokenAccountIx) ←
    M.call (fun w => w.ata w.walletKey publishingCreditMint)
  let ixs0 : List (Option Nat) := releaseMintIx.map some ++ [royaltyTokenAccountIx]
  let ixs1 := ixs0 ++ (match authorityTokenAccountIx with
    | some ix => [some ix]
    | none => [])
  let ixs2 := ixs1 ++ (match authorityPublishingCreditTokenAccountIx with
    | some ix => [some ix]
    | none => [])
  let _config := Releases.releaseInitConfig a.isOpen a.amount a.resalePercentage
    (c.uiToNative a.retailPrice paymentMint) c.nowMs
  let metadata := (findProgramAddress
    [.str "metadata", .key c.ids.metaplex, .key a.releaseMint] c.ids.metaplex).1
  let tx0 : Tx :=
    { method := "releaseInit",
      accounts :=
        [("release", a.release), ("releaseSigner", releaseSigner),
         ("releaseMint", a.releaseMint),
         ("payer", c.walletKey), ("authority", c.walletKey),
         ("authorityTokenAccount", authorityTokenAccount),
         ("paymentMint", paymentMint),
         ("royaltyTokenAccount", royaltyTokenAccount),
         ("metadata", metadata), ("metadataProgram", c.ids.metaplex),
         ("systemProgram", systemProgramKey),
         ("tokenProgram", c.ids.tokenProgram), ("rent", rentKey)],
      pre := ixs2, remaining := [], signers := [],
      feePayer := none, blockhash := none }
  let tx1 ← M.finalizeTx tx0
  let tx := { tx1 with signers := tx1.signers ++ [a.releaseMint] }
  let _txid ← M.sendAndConfirm tx
  let createdRelease ← Releases.fetch (pkStr a.release) false
  pure (.releaseWrap createdRelease)

/-- `releaseInit` as an `Op` (catch returns `{ error }`). -/
def Releases.releaseInitOp : Op :=
  { Arg := ReleaseInitArgs, body := Releases.releaseInitBody,
    catchVal := fun e => .errWrap e }

/-- The body of `closeRelease(client, releasePublicKey)`. -/
def Releases.closeReleaseBody (releasePublicKey : PK) : M Ret := do
  let c ← M.ask
  M.call (fun w => w.useProgram)
  let release ← M.call (fun w => w.releaseAccount releasePublicKey)
  let tx0 : Tx :=
    { method := "releaseCloseEdition",
      accounts :=
        [("authority", c.walletKey), ("release", releasePublicKey),
         ("releaseSigner", release.releaseSigner),
         ("releaseMint", release.releaseMint)],
      pre := [], remaining := [], signers := [],
      feePayer := none, blockhash := none }
  let tx ← M.finalizeTx tx0
  let _txid ← M.sendAndConfirm tx
  let closedRelease ← Releases.fetch (pkStr releasePublicKey) false
  pure (.releaseWrap closedRelease)

/-- `closeRelease` as an `Op` (catch returns `{ error }`). -/
def Releases.closeReleaseOp : Op :=
  { Arg := PK, body := Releases.closeReleaseBody,
    catchVal := fun e => .errWrap e }

/-- The body of `collectRoyaltyForRelease(client, recipient,
releasePublicKey)`.  The guard
`if (!releasePublicKey || !recipient) return;` precedes the `try` block
and returns `undefined` without touching the network. -/
def Releases.collectRoyaltyForReleaseBody (a : Option PK × Option PK) : M Ret := do
  let (recipient, releasePublicKey) := a
  match releasePublicKey, recipient with
  | some rpk, some _ => do
    let c ← M.ask
    M.call (fun w => w.useProgram)
    let release ← M.call (fun w => w.releaseAccount rpk)
    let (authorityTokenAccount, authorityTokenAccountIx) ←
      M.call (fun w => w.ata w.walletKey release.paymentMint)
    let pre : List (Option Nat) := match authorityTokenAccountIx with
      | some ix => [some ix]
      | none => []
    let tx0 : Tx :=
      { method := "releaseRevenueShareCollect",
        accounts :=
          [("authority", c.walletKey),
           ("authorityTokenAccount", authorityTokenAccount),
           ("release", rpk),
           ("releaseMint", release.releaseMint),
           ("releaseSigner", release.releaseSigner),
           ("royaltyTokenAccount", release.royaltyTokenAccount),
           ("tokenProgram", c.ids.tokenProgram)],
        pre := pre, remaining := [], signers := [],
        feePayer := none, blockhash := none }
    let tx ← M.finalizeTx tx0
    let _txid ← M.sendAndConfirm tx
    let collectedRelease ← Releases.fetch (pkStr rpk) true
    pure (.releaseWrap collectedRelease)
  | _, _ => pure .undefined

/-- `collectRoyaltyForRelease` as an `Op` (catch returns `{ error }`). -/
def Releases.collectRoyaltyForReleaseOp : Op :=
  { Arg := Option PK × Option PK, body := Releases.collectRoyaltyForReleaseBody,
    catchVal := fun e => .errWrap e }

/-- The body of `addRoyaltyRecipient(client, recipientAddress,
percentShare, releasePublicKey)`.  When either associated-token-account
creation instruction exists, the source assigns `request.instructions`,
but no `request` is in scope in this function (`ReferenceError`). -/
def Releases.addRoyaltyRecipientBody (a : PK × ℚ × PK) : M Ret := do
  let (recipientAddress, percentShare, releasePublicKey) := a
  let c ← M.ask
  M.call (fun w => w.useProgram)
  let release ← M.call (fun w => w.releaseAccount releasePublicKey)
  let _updateAmount : ℚ := percentShare * 10000
  let (newRoyaltyRecipientTokenAccount, newRoyaltyRecipientTokenAccountIx) ←
    M.call (fun w => w.ata recipientAddress release.paymentMint)
  let (authorityTokenAccount, authorityTokenAccountIx) ←
    M.call (fun w => w.ata w.walletKey release.paymentMint)
  if newRoyaltyRecipientTokenAccountIx.isSome then
    M.throw jsRefError
  else
    pure ()
  if authorityTokenAccountIx.isSome then
    M.throw jsRefError
  else
    pure ()
  let tx0 : Tx :=
    { method := "releaseRevenueShareTransfer",
      accounts :=
        [("authority", c.walletKey),
         ("authorityTokenAccount", authorityTokenAccount),
         ("release", releasePublicKey),
         ("releaseMint", release.releaseMint),
         ("releaseSigner", release.releaseSigner),
         ("royaltyTokenAccount", release.royaltyTokenAccount),
         ("newRoyaltyRecipient", recipientAddress),
         ("newRoyaltyRecipientTokenAccount", newRoyaltyRecipientTokenAccount),
         ("tokenProgram", c.ids.tokenProgram), ("rent", rentKey)],
      pre := [], remaining := [], signers := [],
      feePayer := none, blockhash := none }
  let tx ← M.finalizeTx tx0
  let _txid ← M.sendAndConfirm tx
  let updatedRelease ← Releases.fetch (pkStr releasePublicKey) true
  pure (.releaseWrap updatedRelease)

/-- `addRoyaltyRecipient` as an `Op` (catch returns `{ error }`). -/
def Releases.addRoyaltyRecipientOp : Op :=
  { Arg := PK × ℚ × PK, body := Releases.addRoyaltyRecipientBody,
    catchVal := fun e => .errWrap e }

/-! ## The `hubInitWithCredit` Hub-module variant (second document of
src/package.json) -/

/-- The state of the caller's `hubParams` object after
`hubInitWithCredit` returns: as in `hubInit`, but gated on
`anchor.Program.at` succeeding. -/
def CreditHubs.hubInitWithCreditParamsAfter (w : World) (p : HubParams) : HubParams :=
  match w.programAt with
  | .error _ => p
  | .ok _ =>
    let p1 := hubInitMutateFees p
    { p1 with
      hubSignerBump := some (Hubs.hubInitDerived w.programId p1.handle w.walletKey).2.2.1 }

/-- The body of `hubInitWithCredit(hubParams, wallet, connection, ids)`.
It submits through anchor's `.rpc()` — never assembling a transaction
object, never setting `feePayer`/`recentBlockhash`, never calling
`wallet.sendTransaction` — then awaits `getParsedTransaction` and calls
`this.fetch(..)`; in an ES module `this` is `undefined` inside the arrow
function, so that call raises a `TypeError` and the function always
falls into its `catch` (returning `false`), never reaching
`return hub.toBase58`. -/
def CreditHubs.hubInitWithCreditBody (p : HubParams) : M Ret := do
  let c ← M.ask
  M.call (fun w => w.programAt)
  let p1 := hubInitMutateFees p
  let (hub, _hubSigner, hubSignerBump, _hubCollaborator) :=
    Hubs.hubInitDerived c.programId p1.handle c.walletKey
  let _p2 := { p1 with hubSignerBump := some hubSignerBump }
  let (_, _usdcVaultIx) ← M.call (fun w => w.ata _hubSigner w.ids.usdc)
  let (_, _wrappedSolVaultIx) ← M.call (fun w => w.ata _hubSigner w.ids.wsol)
  let (_authorityHubCreditTokenAccount, _) ←
    M.call (fun w => w.ata w.walletKey w.ids.hubCredit)
  let txid ← M.rpcSend "hubInitWithCredit"
  M.parsedTx txid "confirmed"
  M.throw jsRefError
  pure (.fnRef hub)

/-- `hubInitWithCredit` as an `Op` (catch logs and returns `false`). -/
def CreditHubs.hubInitWithCreditOp : Op :=
  { Arg := HubParams, body := CreditHubs.hubInitWithCreditBody,
    catchVal := fun _ => .bool false }

/-! ## Trace predicates and inversion lemmas -/

/-- The submission discipline of claim C3: the trace contains, in
order, a wallet submission of a transaction whose `feePayer` is the
connected wallet's key and whose `recentBlockhash` is the fetched
blockhash, followed by a confirmation poll
(`getConfirmTransaction` or `getParsedTransaction`) of the transaction
id the wallet returned. -/
def SubmitsViaWallet (w : World) (t : List Event) : Prop :=
  ∃ tx txid ev,
    List.Sublist [Event.sendTx tx, ev] t ∧
    tx.feePayer = some w.walletKey ∧
    (∃ bh, w.blockhash = Except.ok bh ∧ tx.blockhash = some bh) ∧
    w.send tx = Except.ok txid ∧
    (ev = Event.confirmTx txid ∨ ∃ cm, ev = Event.parsedTx txid cm)

/-- The re-fetch discipline of claim C2: the trace contains, in order,
a wallet submission, a confirmation poll of its transaction id, and a
REST GET whose successful result is what the operation returns (either
directly or wrapped as `{ release: .. }`). -/
def RefetchesAndReturns (w : World) (v : Ret) (t : List Event) : Prop :=
  ∃ tx txid path ps wad r,
    List.Sublist
      [Event.sendTx tx, Event.confirmTx txid, Event.restGet path ps wad] t ∧
    w.send tx = Except.ok txid ∧
    w.restGet path ps wad = Except.ok r ∧
    (v = Ret.restVal r ∨ v = Ret.releaseWrap r)

theorem M.bind_ok {α β : Type} {m : M α} {f : α → M β} {w : World} {b : β}
    {t : List Event} (h : (m >>= f) w = (Except.ok b, t)) :
    ∃ a ta tb, m w = (Except.ok a, ta) ∧ f a w = (Except.ok b, tb) ∧ t = ta ++ tb := by
  have h' : M.bindM m f w = (Except.ok b, t) := h
  unfold M.bindM at h'
  rcases hm : m w with ⟨r, t1⟩
  rw [hm] at h'
  cases r with
  | error e => simp at h'
  | ok a =>
    dsimp only at h'
    rcases hf : f a w with ⟨rb, t2⟩
    rw [hf] at h'
    simp only [Prod.mk.injEq] at h'
    exact ⟨a, t1, t2, rfl, by rw [hf, h'.1], h'.2.symm⟩

theorem M.ask_ok {w : World} {c : World} {t : List Event}
    (h : M.ask w = (Except.ok c, t)) : c = w ∧ t = [] := by
  unfold M.ask at h
  simp only [Prod.mk.injEq, Except.ok.injEq] at h
  exact ⟨h.1.symm, h.2.symm⟩

theorem M.call_ok {α : Type} {r : World → Except Err α} {w : World} {a : α}
    {t : List Event} (h : M.call r w = (Except.ok a, t)) :
    r w = Except.ok a ∧ t = [] := by
  unfold M.call at h
  simp only [Prod.mk.injEq] at h
  exact ⟨h.1, h.2.symm⟩

theorem M.pure_ok {α : Type} {a b : α} {w : World} {t : List Event}
    (h : (pure a : M α) w = (Except.ok b, t)) : b = a ∧ t = [] := by
  have h' : M.pureM a w = (Except.ok b, t) := h
  unfold M.pureM at h'
  simp only [Prod.mk.injEq, Except.ok.injEq] at h'
  exact ⟨h'.1.symm, h'.2.symm⟩

theorem M.throw_not_ok {α : Type} {e : Err} {w : World} {b : α} {t : List Event}
    (h : M.throw e w = (Except.ok b, t)) : False := by
  unfold M.throw at h
  simp at h

theorem M.ninaGet_ok {path : String} {ps : Option Params} {wad : Bool}
    {w : World} {r : RestVal} {t : List Event}
    (h : M.ninaGet path ps wad w = (Except.ok r, t)) :
    w.restGet path ps wad = Except.ok r ∧ t = [Event.restGet path ps wad] := by
  unfold M.ninaGet at h
  simp only [Prod.mk.injEq] at h
  exact ⟨h.1, h.2.symm⟩

theorem M.axiosGet_ok {u : String} {w : World} {x : Unit} {t : List Event}
    (h : M.axiosGet u w = (Except.ok x, t)) : t = [Event.axiosGet u] := by
  unfold M.axiosGet at h
  simp only [Prod.mk.injEq] at h
  exact h.2.symm

theorem M.sendTx_ok {tx : Tx} {w : World} {txid : Nat} {t : List Event}
    (h : M.sendTx tx w = (Except.ok txid, t)) :
    w.send tx = Except.ok txid ∧ t = [Event.sendTx tx] := by
  unfold M.sendTx at h
  simp only [Prod.mk.injEq] at h
  exact ⟨h.1, h.2.symm⟩

theorem M.parsedTx_ok {i : Nat} {cm : String} {w : World} {x : Unit}
    {t : List Event} (h : M.parsedTx i cm w = (Except.ok x, t)) :
    t = [Event.parsedTx i cm] := by
  unfold M.parsedTx at h
  simp only [Prod.mk.injEq] at h
  exact h.2.symm

theorem M.finalize_ok {tx0 : Tx} {w : World} {tx : Tx} {t : List Event}
    (h : M.finalizeTx tx0 w = (Except.ok tx, t)) :
    ∃ bh, w.blockhash = Except.ok bh ∧
      tx = { tx0 with blockhash := some bh, feePayer := some w.walletKey } ∧
      t = [] := by
  unfold M.finalizeTx at h
  obtain ⟨bh, ta1, tb1, hc1, hk1, rfl⟩ := M.bind_ok h
  obtain ⟨hbh, rfl⟩ := M.call_ok hc1
  obtain ⟨c, ta2, tb2, hc2, hk2, rfl⟩ := M.bind_ok hk1
  obtain ⟨rfl, rfl⟩ := M.ask_ok hc2
  obtain ⟨htx, rfl⟩ := M.pure_ok hk2
  exact ⟨bh, hbh, htx, rfl⟩

theorem M.confirmTx_ok {i : Nat} {w : World} {x : Unit} {t : List Event}
    (h : M.confirmTx i w = (Except.ok x, t)) :
    w.confirm i = Except.ok () ∧ t = [Event.confirmTx i] := by
  unfold M.confirmTx at h
  simp only [Prod.mk.injEq] at h
  cases x
  exact ⟨h.1, h.2.symm⟩

theorem M.sendConfirm_ok {tx : Tx} {w : World} {txid : Nat} {t : List Event}
    (h : M.sendAndConfirm tx w = (Except.ok txid, t)) :
    w.send tx = Except.ok txid ∧ w.confirm txid = Except.ok () ∧
      t = [Event.sendTx tx, Event.confirmTx txid] := by
  unfold M.sendAndConfirm at h
  obtain ⟨i, ta1, tb1, hc1, hk1, rfl⟩ := M.bind_ok h
  obtain ⟨hsend, rfl⟩ := M.sendTx_ok hc1
  obtain ⟨u, ta2, tb2, hc2, hk2, rfl⟩ := M.bind_ok hk1
  obtain ⟨hconf, rfl⟩ := M.confirmTx_ok hc2
  obtain ⟨rfl, rfl⟩ := M.pure_ok hk2
  exact ⟨hsend, hconf, by simp⟩

theorem sublist_skip {α : Type} (s : List α) {l r : List α}
    (h : List.Sublist l r) : List.Sublist l (s ++ r) := by
  induction s with
  | nil => exact h
  | cons a s ih => exact List.Sublist.cons a ih

theorem Releases.closeRelease_shape {a : PK} {w : World} {v : Ret} {t : List Event}
    (h : Releases.closeReleaseBody a w = (Except.ok v, t)) :
    SubmitsViaWallet w t ∧ RefetchesAndReturns w v t := by
  unfold Releases.closeReleaseBody at h
  obtain ⟨c, ta1, tb1, hc1, hk1, rfl⟩ := M.bind_ok h
  obtain ⟨rfl, rfl⟩ := M.ask_ok hc1
  obtain ⟨u1, ta2, tb2, hc2, hk2, rfl⟩ := M.bind_ok hk1
  obtain ⟨hup, rfl⟩ := M.call_ok hc2
  obtain ⟨release, ta3, tb3, hc3, hk3, rfl⟩ := M.bind_ok hk2
  obtain ⟨hrel, rfl⟩ := M.call_ok hc3
  obtain ⟨tx, ta4, tb4, hc4, hk4, rfl⟩ := M.bind_ok hk3
  obtain ⟨bh, hbh, rfl, rfl⟩ := M.finalize_ok hc4
  obtain ⟨txid, ta5, tb5, hc5, hk5, rfl⟩ := M.bind_ok hk4
  obtain ⟨hsend, hconf, rfl⟩ := M.sendConfirm_ok hc5
  obtain ⟨resp, ta6, tb6, hc6, hk6, rfl⟩ := M.bind_ok hk5
  obtain ⟨hrest, rfl⟩ := M.ninaGet_ok hc6
  obtain ⟨rfl, rfl⟩ := M.pure_ok hk6
  constructor
  · exact ⟨_, txid, _, by simp, rfl, ⟨bh, hbh, rfl⟩, hsend, Or.inl rfl⟩
  · exact ⟨_, txid, _, _, _, resp, by simp, hsend, hrest, Or.inr rfl⟩

theorem Hubs.hubInit_shape {p : HubParams} {w : World} {v : Ret} {t : List Event}
    (h : Hubs.hubInitBody p w = (Except.ok v, t)) :
    SubmitsViaWallet w t ∧ RefetchesAndReturns w v t := by
  unfold Hubs.hubInitBody at h
  obtain ⟨c, ta1, tb1, hc1, hk1, rfl⟩ := M.bind_ok h
  obtain ⟨rfl, rfl⟩ := M.ask_ok hc1
  obtain ⟨u1, ta2, tb2, hc2, hk2, rfl⟩ := M.bind_ok hk1
  obtain ⟨hup, rfl⟩ := M.call_ok hc2
  obtain ⟨a1, ta3, tb3, hc3, hk3, rfl⟩ := M.bind_ok hk2
  obtain ⟨hata1, rfl⟩ := M.call_ok hc3
  obtain ⟨a2, ta4, tb4, hc4, hk4, rfl⟩ := M.bind_ok hk3
  obtain ⟨hata2, rfl⟩ := M.call_ok hc4
  obtain ⟨tx, ta5, tb5, hc5, hk5, rfl⟩ := M.bind_ok hk4
  obtain ⟨bh, hbh, rfl, rfl⟩ := M.finalize_ok hc5
  obtain ⟨txid, ta6, tb6, hc6, hk6, rfl⟩ := M.bind_ok hk5
  obtain ⟨hsend, hconf, rfl⟩ := M.sendConfirm_ok hc6
  obtain ⟨resp, ta7, tb7, hc7, hk7, rfl⟩ := M.bind_ok hk6
  obtain ⟨hrest, rfl⟩ := M.ninaGet_ok hc7
  obtain ⟨rfl, rfl⟩ := M.pure_ok hk7
  constructor
  · exact ⟨_, txid, _, by simp, rfl, ⟨bh, hbh, rfl⟩, hsend, Or.inl rfl⟩
  · exact ⟨_, txid, _, _, _, resp, by simp, hsend, hrest, Or.inl rfl⟩

theorem Hubs.hubUpdateConfig_shape {a : PK × String × ℚ × ℚ} {w : World} {v : Ret}
    {t : List Event} (h : Hubs.hubUpdateConfigBody a w = (Except.ok v, t)) :
    SubmitsViaWallet w t ∧ RefetchesAndReturns w v t := by
  obtain ⟨hubPubkey, uri, pf, rf⟩ := a
  unfold Hubs.hubUpdateConfigBody at h
  obtain ⟨c, ta1, tb1, hc1, hk1, rfl⟩ := M.bind_ok h
  obtain ⟨rfl, rfl⟩ := M.ask_ok hc1
  obtain ⟨u1, ta2, tb2, hc2, hk2, rfl⟩ := M.bind_ok hk1
  obtain ⟨hup, rfl⟩ := M.call_ok hc2
  obtain ⟨pre1, ta3, tb3, hc3, hk3, rfl⟩ := M.bind_ok hk2
  obtain ⟨hpre1, rfl⟩ := M.ninaGet_ok hc3
  obtain ⟨tx, ta4, tb4, hc4, hk4, rfl⟩ := M.bind_ok hk3
  obtain ⟨bh, hbh, rfl, rfl⟩ := M.finalize_ok hc4
  obtain ⟨txid, ta5, tb5, hc5, hk5, rfl⟩ := M.bind_ok hk4
  obtain ⟨hsend, hconf, rfl⟩ := M.sendConfirm_ok hc5
  obtain ⟨u2, ta6, tb6, hc6, hk6, rfl⟩ := M.bind_ok hk5
  obtain rfl := M.axiosGet_ok hc6
  obtain ⟨resp, ta7, tb7, hc7, hk7, rfl⟩ := M.bind_ok hk6
  obtain ⟨hrest, rfl⟩ := M.ninaGet_ok hc7
  obtain ⟨rfl, rfl⟩ := M.pure_ok hk7
  constructor
  · exact ⟨_, txid, _, by simp, rfl, ⟨bh, hbh, rfl⟩, hsend, Or.inl rfl⟩
  · refine ⟨_, txid, _, _, _, resp, ?_, hsend, hrest, Or.inl rfl⟩
    simp only [List.nil_append, List.append_nil, List.cons_append]
    exact List.Sublist.cons _ (List.Sublist.cons₂ _ (List.Sublist.cons₂ _
      (List.Sublist.cons _ (List.Sublist.cons₂ _ (List.nil_sublist _)))))

theorem Hubs.hubAddCollaborator_shape {a : PK × PK × Bool × Bool × Int} {w : World}
    {v : Ret} {t : List Event}
    (h : Hubs.hubAddCollaboratorBody a w = (Except.ok v, t)) :
    SubmitsViaWallet w t ∧ RefetchesAndReturns w v t := by
  obtain ⟨hubPubkey, collaboratorPubkey, cc, ccol, al⟩ := a
  unfold Hubs.hubAddCollaboratorBody at h
  obtain ⟨c, ta1, tb1, hc1, hk1, rfl⟩ := M.bind_ok h
  obtain ⟨rfl, rfl⟩ := M.ask_ok hc1
  obtain ⟨u1, ta2, tb2, hc2, hk2, rfl⟩ := M.bind_ok hk1
  obtain ⟨hup, rfl⟩ := M.call_ok hc2
  obtain ⟨pre1, ta3, tb3, hc3, hk3, rfl⟩ := M.bind_ok hk2
  obtain ⟨hpre1, rfl⟩ := M.ninaGet_ok hc3
  obtain ⟨tx, ta4, tb4, hc4, hk4, rfl⟩ := M.bind_ok hk3
  obtain ⟨bh, hbh, rfl, rfl⟩ := M.finalize_ok hc4
  obtain ⟨txid, ta5, tb5, hc5, hk5, rfl⟩ := M.bind_ok hk4
  obtain ⟨hsend, hconf, rfl⟩ := M.sendConfirm_ok hc5
  obtain ⟨u2, ta6, tb6, hc6, hk6, rfl⟩ := M.bind_ok hk5
  obtain rfl := M.axiosGet_ok hc6
  obtain ⟨resp, ta7, tb7, hc7, hk7, rfl⟩ := M.bind_ok hk6
  obtain ⟨hrest, rfl⟩ := M.ninaGet_ok hc7
  obtain ⟨rfl, rfl⟩ := M.pure_ok hk7
  constructor
  · exact ⟨_, txid, _, by simp, rfl, ⟨bh, hbh, rfl⟩, hsend, Or.inl rfl⟩
  · refine ⟨_, txid, _, _, _, resp, ?_, hsend, hrest, Or.inl rfl⟩
    simp only [List.nil_append, List.append_nil, List.cons_append]
    exact List.Sublist.cons _ (List.Sublist.cons₂ _ (List.Sublist.cons₂ _
      (List.Sublist.cons _ (List.Sublist.cons₂ _ (List.nil_sublist _)))))

theorem Hubs.hubUpdateCollaboratorPermission_shape {a : PK × PK × Bool × Bool × Int}
    {w : World} {v : Ret} {t : List Event}
    (h : Hubs.hubUpdateCollaboratorPermissionBody a w = (Except.ok v, t)) :
    SubmitsViaWallet w t ∧ RefetchesAndReturns w v t := by
  obtain ⟨hubPubkey, collaboratorPubkey, cc, ccol, al⟩ := a
  unfold Hubs.hubUpdateCollaboratorPermissionBody at h
  obtain ⟨c, ta1, tb1, hc1, hk1, rfl⟩ := M.bind_ok h
  obtain ⟨rfl, rfl⟩ := M.ask_ok hc1
  obtain ⟨u1, ta2, tb2, hc2, hk2, rfl⟩ := M.bind_ok hk1
  obtain ⟨hup, rfl⟩ := M.call_ok hc2
  obtain ⟨pre1, ta3, tb3, hc3, hk3, rfl⟩ := M.bind_ok hk2
  obtain ⟨hpre1, rfl⟩ := M.ninaGet_ok hc3
  obtain ⟨tx, ta4, tb4, hc4, hk4, rfl⟩ := M.bind_ok hk3
  obtain ⟨bh, hbh, rfl, rfl⟩ := M.finalize_ok hc4
  obtain ⟨txid, ta5, tb5, hc5, hk5, rfl⟩ := M.bind_ok hk4
  obtain ⟨hsend, hconf, rfl⟩ := M.sendConfirm_ok hc5
  obtain ⟨resp, ta6, tb6, hc6, hk6, rfl⟩ := M.bind_ok hk5
  obtain ⟨hrest, rfl⟩ := M.ninaGet_ok hc6
  obtain ⟨rfl, rfl⟩ := M.pure_ok hk6
  constructor
  · exact ⟨_, txid, _, by simp, rfl, ⟨bh, hbh, rfl⟩, hsend, Or.inl rfl⟩
  · refine ⟨_, txid, _, _, _, resp, ?_, hsend, hrest, Or.inl rfl⟩
    simp only [List.nil_append, List.append_nil, List.cons_append]
    exact List.Sublist.cons _ (List.Sublist.cons₂ _ (List.Sublist.cons₂ _
      (List.Sublist.cons₂ _ (List.nil_sublist _))))

theorem Hubs.hubRemoveCollaborator_shape {a : PK × PK} {w : World} {v : Ret}
    {t : List Event} (h : Hubs.hubRemoveCollaboratorBody a w = (Except.ok v, t)) :
    SubmitsViaWallet w t ∧ RefetchesAndReturns w v t := by
  obtain ⟨hubPubkey, collaboratorPubkey⟩ := a
  unfold Hubs.hubRemoveCollaboratorBody at h
  obtain ⟨c, ta1, tb1, hc1, hk1, rfl⟩ := M.bind_ok h
  obtain ⟨rfl, rfl⟩ := M.ask_ok hc1
  obtain ⟨u1, ta2, tb2, hc2, hk2, rfl⟩ := M.bind_ok hk1
  obtain ⟨hup, rfl⟩ := M.call_ok hc2
  obtain ⟨pre1, ta3, tb3, hc3, hk3, rfl⟩ := M.bind_ok hk2
  obtain ⟨hpre1, rfl⟩ := M.ninaGet_ok hc3
  obtain ⟨tx, ta4, tb4, hc4, hk4, rfl⟩ := M.bind_ok hk3
  obtain ⟨bh, hbh, rfl, rfl⟩ := M.finalize_ok hc4
  obtain ⟨txid, ta5, tb5, hc5, hk5, rfl⟩ := M.bind_ok hk4
  obtain ⟨hsend, hconf, rfl⟩ := M.sendConfirm_ok hc5
  obtain ⟨u2, ta6, tb6, hc6, hk6, rfl⟩ := M.bind_ok hk5
  obtain rfl := M.axiosGet_ok hc6
  obtain ⟨resp, ta7, tb7, hc7, hk7, rfl⟩ := M.bind_ok hk6
  obtain ⟨hrest, rfl⟩ := M.ninaGet_ok hc7
  obtain ⟨rfl, rfl⟩ := M.pure_ok hk7
  constructor
  · exact ⟨_, txid, _, by simp, rfl, ⟨bh, hbh, rfl⟩, hsend, Or.inl rfl⟩
  · refine ⟨_, txid, _, _, _, resp, ?_, hsend, hrest, Or.inl rfl⟩
    simp only [List.nil_append, List.append_nil, List.cons_append]
    exact List.Sublist.cons _ (List.Sublist.cons₂ _ (List.Sublist.cons₂ _
      (List.Sublist.cons _ (List.Sublist.cons₂ _ (List.nil_sublist _)))))

theorem Hubs.hubAddRelease_shape {a : PK × PK × Option PK} {w : World} {v : Ret}
    {t : List Event} (h : Hubs.hubAddReleaseBody a w = (Except.ok v, t)) :
    SubmitsViaWallet w t ∧ RefetchesAndReturns w v t := by
  obtain ⟨hubPubkey, releasePubkey, fromHub⟩ := a
  unfold Hubs.hubAddReleaseBody at h
  obtain ⟨c, ta1, tb1, hc1, hk1, rfl⟩ := M.bind_ok h
  obtain ⟨rfl, rfl⟩ := M.ask_ok hc1
  obtain ⟨u1, ta2, tb2, hc2, hk2, rfl⟩ := M.bind_ok hk1
  obtain ⟨hup, rfl⟩ := M.call_ok hc2
  obtain ⟨pre1, ta3, tb3, hc3, hk3, rfl⟩ := M.bind_ok hk2
  obtain ⟨hpre1, rfl⟩ := M.ninaGet_ok hc3
  cases fromHub with
  | some fh =>
    obtain ⟨u2, ta4, tb4, hc4, hk4, rfl⟩ := M.bind_ok hk3
    exact absurd hc4 (fun hx => M.throw_not_ok hx)
  | none =>
  obtain ⟨u2, ta4, tb4, hc4, hk4, rfl⟩ := M.bind_ok hk3
  obtain ⟨_, rfl⟩ := M.pure_ok hc4
  obtain ⟨tx, ta5, tb5, hc5, hk5, rfl⟩ := M.bind_ok hk4
  obtain ⟨bh, hbh, rfl, rfl⟩ := M.finalize_ok hc5
  obtain ⟨txid, ta6, tb6, hc6, hk6, rfl⟩ := M.bind_ok hk5
  obtain ⟨hsend, hconf, rfl⟩ := M.sendConfirm_ok hc6
  obtain ⟨resp, ta7, tb7, hc7, hk7, rfl⟩ := M.bind_ok hk6
  obtain ⟨hrest, rfl⟩ := M.ninaGet_ok hc7
  obtain ⟨rfl, rfl⟩ := M.pure_ok hk7
  constructor
  · exact ⟨_, txid, _, by simp, rfl, ⟨bh, hbh, rfl⟩, hsend, Or.inl rfl⟩
  · refine ⟨_, txid, _, _, _, resp, ?_, hsend, hrest, Or.inl rfl⟩
    simp only [List.nil_append, List.append_nil, List.cons_append]
    exact List.Sublist.cons _ (List.Sublist.cons₂ _ (List.Sublist.cons₂ _
      (List.Sublist.cons₂ _ (List.nil_sublist _))))

theorem Hubs.hubContentToggleVisibility_shape {a : PK × PK × String} {w : World}
    {v : Ret} {t : List Event}
    (h : Hubs.hubContentToggleVisibilityBody a w = (Except.ok v, t)) :
    SubmitsViaWallet w t := by
  obtain ⟨hubPubkey, contentAccountPubkey, ty⟩ := a
  unfold Hubs.hubContentToggleVisibilityBody at h
  obtain ⟨c, ta1, tb1, hc1, hk1, rfl⟩ := M.bind_ok h
  obtain ⟨rfl, rfl⟩ := M.ask_ok hc1
  obtain ⟨u1, ta2, tb2, hc2, hk2, rfl⟩ := M.bind_ok hk1
  obtain ⟨hup, rfl⟩ := M.call_ok hc2
  obtain ⟨pre1, ta3, tb3, hc3, hk3, rfl⟩ := M.bind_ok hk2
  obtain ⟨hpre1, rfl⟩ := M.ninaGet_ok hc3
  obtain ⟨tx, ta4, tb4, hc4, hk4, rfl⟩ := M.bind_ok hk3
  obtain ⟨bh, hbh, rfl, rfl⟩ := M.finalize_ok hc4
  obtain ⟨txid, ta5, tb5, hc5, hk5, rfl⟩ := M.bind_ok hk4
  obtain ⟨hsend, rfl⟩ := M.sendTx_ok hc5
  obtain ⟨u2, ta6, tb6, hc6, hk6, rfl⟩ := M.bind_ok hk5
  obtain rfl := M.parsedTx_ok hc6
  obtain ⟨rfl, rfl⟩ := M.pure_ok hk6
  refine ⟨_, txid, Event.parsedTx txid "finalized", ?_, rfl, ⟨bh, hbh, rfl⟩,
    hsend, Or.inr ⟨"finalized", rfl⟩⟩
  simp only [List.nil_append, List.append_nil, List.cons_append]
  exact List.Sublist.cons _ (List.Sublist.cons₂ _ (List.Sublist.cons₂ _
    (List.nil_sublist _)))

theorem Hubs.postInitViaHub_shape {a : PK × String × String × Option PK × Option PK}
    {w : World} {v : Ret} {t : List Event}
    (h : Hubs.postInitViaHubBody a w = (Except.ok v, t)) :
    SubmitsViaWallet w t := by
  obtain ⟨hubPubkey, slug, uri, referenceRelease, fromHub⟩ := a
  unfold Hubs.postInitViaHubBody at h
  obtain ⟨c, ta1, tb1, hc1, hk1, rfl⟩ := M.bind_ok h
  obtain ⟨rfl, rfl⟩ := M.ask_ok hc1
  obtain ⟨u1, ta2, tb2, hc2, hk2, rfl⟩ := M.bind_ok hk1
  obtain ⟨hup, rfl⟩ := M.call_ok hc2
  obtain ⟨pre1, ta3, tb3, hc3, hk3, rfl⟩ := M.bind_ok hk2
  obtain ⟨hpre1, rfl⟩ := M.ninaGet_ok hc3
  cases referenceRelease with
  | some rr =>
    obtain ⟨tx, ta4, tb4, hc4, hk4, rfl⟩ := M.bind_ok hk3
    obtain ⟨bh, hbh, rfl, rfl⟩ := M.finalize_ok hc4
    obtain ⟨txid, ta5, tb5, hc5, hk5, rfl⟩ := M.bind_ok hk4
    obtain ⟨hsend, hconf, rfl⟩ := M.sendConfirm_ok hc5
    obtain ⟨rfl, rfl⟩ := M.pure_ok hk5
    exact ⟨_, txid, _, by simp, rfl, ⟨bh, hbh, rfl⟩, hsend, Or.inl rfl⟩
  | none =>
    obtain ⟨tx, ta4, tb4, hc4, hk4, rfl⟩ := M.bind_ok hk3
    obtain ⟨bh, hbh, rfl, rfl⟩ := M.finalize_ok hc4
    obtain ⟨txid, ta5, tb5, hc5, hk5, rfl⟩ := M.bind_ok hk4
    obtain ⟨hsend, hconf, rfl⟩ := M.sendConfirm_ok hc5
    obtain ⟨rfl, rfl⟩ := M.pure_ok hk5
    exact ⟨_, txid, _, by simp, rfl, ⟨bh, hbh, rfl⟩, hsend, Or.inl rfl⟩

theorem Hubs.postUpdateViaHub_not_ok {a : PK × String × String} {w : World}
    {v : Ret} {t : List Event}
    (h : Hubs.postUpdateViaHubBody a w = (Except.ok v, t)) : False := by
  obtain ⟨hubPubkey, slug, uri⟩ := a
  unfold Hubs.postUpdateViaHubBody at h
  obtain ⟨c, ta1, tb1, hc1, hk1, rfl⟩ := M.bind_ok h
  obtain ⟨rfl, rfl⟩ := M.ask_ok hc1
  obtain ⟨u1, ta2, tb2, hc2, hk2, rfl⟩ := M.bind_ok hk1
  obtain ⟨hup, rfl⟩ := M.call_ok hc2
  exact M.throw_not_ok hk2

theorem Hubs.collectRoyaltyForReleaseViaHub_shape {a : PK × PK} {w : World}
    {v : Ret} {t : List Event}
    (h : Hubs.collectRoyaltyForReleaseViaHubBody a w = (Except.ok v, t)) :
    SubmitsViaWallet w t := by
  obtain ⟨releasePubkey, hubPubkey⟩ := a
  unfold Hubs.collectRoyaltyForReleaseViaHubBody at h
  obtain ⟨c, ta1, tb1, hc1, hk1, rfl⟩ := M.bind_ok h
  obtain ⟨rfl, rfl⟩ := M.ask_ok hc1
  obtain ⟨u1, ta2, tb2, hc2, hk2, rfl⟩ := M.bind_ok hk1
  obtain ⟨hup, rfl⟩ := M.call_ok hc2
  obtain ⟨hub, ta3, tb3, hc3, hk3, rfl⟩ := M.bind_ok hk2
  obtain ⟨hhub, rfl⟩ := M.call_ok hc3
  obtain ⟨release, ta4, tb4, hc4, hk4, rfl⟩ := M.bind_ok hk3
  obtain ⟨hrel, rfl⟩ := M.call_ok hc4
  obtain ⟨meta, ta5, tb5, hc5, hk5, rfl⟩ := M.bind_ok hk4
  obtain ⟨hmeta, rfl⟩ := M.ninaGet_ok hc5
  obtain ⟨hwal, ta6, tb6, hc6, hk6, rfl⟩ := M.bind_ok hk5
  obtain ⟨hata, rfl⟩ := M.call_ok hc6
  obtain ⟨tx, ta7, tb7, hc7, hk7, rfl⟩ := M.bind_ok hk6
  obtain ⟨bh, hbh, rfl, rfl⟩ := M.finalize_ok hc7
  obtain ⟨txid, ta8, tb8, hc8, hk8, rfl⟩ := M.bind_ok hk7
  obtain ⟨hsend, hconf, rfl⟩ := M.sendConfirm_ok hc8
  obtain ⟨rfl, rfl⟩ := M.pure_ok hk8
  exact ⟨_, txid, _, by simp, rfl, ⟨bh, hbh, rfl⟩, hsend, Or.inl rfl⟩

theorem Hubs.hubWithdraw_shape {a : PK} {w : World} {v : Ret} {t : List Event}
    (h : Hubs.hubWithdrawBody a w = (Except.ok v, t)) :
    SubmitsViaWallet w t := by
  unfold Hubs.hubWithdrawBody at h
  obtain ⟨c, ta1, tb1, hc1, hk1, rfl⟩ := M.bind_ok h
  obtain ⟨rfl, rfl⟩ := M.ask_ok hc1
  obtain ⟨u1, ta2, tb2, hc2, hk2, rfl⟩ := M.bind_ok hk1
  obtain ⟨hup, rfl⟩ := M.call_ok hc2
  obtain ⟨pre1, ta3, tb3, hc3, hk3, rfl⟩ := M.bind_ok hk2
  obtain ⟨hpre1, rfl⟩ := M.ninaGet_ok hc3
  obtain ⟨a1, ta4, tb4, hc4, hk4, rfl⟩ := M.bind_ok hk3
  obtain ⟨hata1, rfl⟩ := M.call_ok hc4
  obtain ⟨a2, ta5, tb5, hc5, hk5, rfl⟩ := M.bind_ok hk4
  obtain ⟨hata2, rfl⟩ := M.call_ok hc5
  obtain ⟨amts, ta6, tb6, hc6, hk6, rfl⟩ := M.bind_ok hk5
  obtain ⟨hamts, rfl⟩ := M.call_ok hc6
  cases amts with
  | nil =>
    obtain ⟨amt0, ta7, tb7, hc7, hk7, rfl⟩ := M.bind_ok hk6
    exact absurd hc7 (fun hx => M.throw_not_ok hx)
  | cons amt rest =>
  obtain ⟨amt0, ta7, tb7, hc7, hk7, rfl⟩ := M.bind_ok hk6
  obtain ⟨rfl, rfl⟩ := M.pure_ok hc7
  obtain ⟨tx, ta8, tb8, hc8, hk8, rfl⟩ := M.bind_ok hk7
  obtain ⟨bh, hbh, rfl, rfl⟩ := M.finalize_ok hc8
  obtain ⟨txid, ta9, tb9, hc9, hk9, rfl⟩ := M.bind_ok hk8
  obtain ⟨hsend, hconf, rfl⟩ := M.sendConfirm_ok hc9
  obtain ⟨rfl, rfl⟩ := M.pure_ok hk9
  exact ⟨_, txid, _, by simp, rfl, ⟨bh, hbh, rfl⟩, hsend, Or.inl rfl⟩

theorem Exchanges.exchangeInit_shape {a : Int × Bool × PK} {w : World} {v : Ret}
    {t : List Event} (h : Exchanges.exchangeInitBody a w = (Except.ok v, t)) :
    SubmitsViaWallet w t := by
  obtain ⟨amount, isSelling, releasePublicKey⟩ := a
  unfold Exchanges.exchangeInitBody at h
  obtain ⟨c, ta1, tb1, hc1, hk1, rfl⟩ := M.bind_ok h
  obtain ⟨rfl, rfl⟩ := M.ask_ok hc1
  obtain ⟨u1, ta2, tb2, hc2, hk2, rfl⟩ := M.bind_ok hk1
  obtain ⟨hup, rfl⟩ := M.call_ok hc2
  obtain ⟨releaseAccount, ta3, tb3, hc3, hk3, rfl⟩ := M.bind_ok hk2
  obtain ⟨hrel, rfl⟩ := M.call_ok hc3
  obtain ⟨a1, ta4, tb4, hc4, hk4, rfl⟩ := M.bind_ok hk3
  obtain ⟨hata1, rfl⟩ := M.call_ok hc4
  obtain ⟨a2, ta5, tb5, hc5, hk5, rfl⟩ := M.bind_ok hk4
  obtain ⟨hata2, rfl⟩ := M.call_ok hc5
  obtain ⟨a3, ta6, tb6, hc6, hk6, rfl⟩ := M.bind_ok hk5
  obtain ⟨hata3, rfl⟩ := M.call_ok hc6
  obtain ⟨cIx, ta7, tb7, hc7, hk7, rfl⟩ := M.bind_ok hk6
  obtain ⟨hcIx, rfl⟩ := M.call_ok hc7
  cases hsol : (c.isSol releaseAccount.paymentMint && !isSelling) with
  | true =>
    rw [hsol] at hk7
    obtain ⟨u2, ta8, tb8, hc8, hk8, rfl⟩ := M.bind_ok hk7
    exact absurd hc8 (fun hx => M.throw_not_ok hx)
  | false =>
  rw [hsol] at hk7
  obtain ⟨u2, ta8, tb8, hc8, hk8, rfl⟩ := M.bind_ok hk7
  obtain ⟨_, rfl⟩ := M.pure_ok hc8
  obtain ⟨tx, ta9, tb9, hc9, hk9, rfl⟩ := M.bind_ok hk8
  obtain ⟨bh, hbh, rfl, rfl⟩ := M.finalize_ok hc9
  obtain ⟨txid, ta10, tb10, hc10, hk10, rfl⟩ := M.bind_ok hk9
  obtain ⟨hsend, rfl⟩ := M.sendTx_ok hc10
  obtain ⟨u3, ta11, tb11, hc11, hk11, rfl⟩ := M.bind_ok hk10
  obtain rfl := M.parsedTx_ok hc11
  obtain ⟨rfl, rfl⟩ := M.pure_ok hk11
  refine ⟨_, txid, Event.parsedTx txid "confirmed", ?_, rfl, ⟨bh, hbh, rfl⟩,
    hsend, Or.inr ⟨"confirmed", rfl⟩⟩
  simp only [List.nil_append, List.append_nil, List.cons_append]
  exact List.Sublist.cons₂ _ (List.Sublist.cons₂ _ (List.nil_sublist _))

theorem Exchanges.exchangeAccept_shape {a : ExchangeArg × PK} {w : World} {v : Ret}
    {t : List Event} (h : Exchanges.exchangeAcceptBody a w = (Except.ok v, t)) :
    SubmitsViaWallet w t := by
  obtain ⟨exchange, releasePublicKey⟩ := a
  unfold Exchanges.exchangeAcceptBody at h
  obtain ⟨c, ta1, tb1, hc1, hk1, rfl⟩ := M.bind_ok h
  obtain ⟨rfl, rfl⟩ := M.ask_ok hc1
  obtain ⟨u1, ta2, tb2, hc2, hk2, rfl⟩ := M.bind_ok hk1
  obtain ⟨hup, rfl⟩ := M.call_ok hc2
  obtain ⟨release, ta3, tb3, hc3, hk3, rfl⟩ := M.bind_ok hk2
  obtain ⟨hrel, rfl⟩ := M.call_ok hc3
  obtain ⟨exchangeAccount, ta4, tb4, hc4, hk4, rfl⟩ := M.bind_ok hk3
  obtain ⟨hexa, rfl⟩ := M.call_ok hc4
  obtain ⟨a1, ta5, tb5, hc5, hk5, rfl⟩ := M.bind_ok hk4
  obtain ⟨hata1, rfl⟩ := M.call_ok hc5
  obtain ⟨a2, ta6, tb6, hc6, hk6, rfl⟩ := M.bind_ok hk5
  obtain ⟨hata2, rfl⟩ := M.call_ok hc6
  obtain ⟨a3, ta7, tb7, hc7, hk7, rfl⟩ := M.bind_ok hk6
  obtain ⟨hata3, rfl⟩ := M.call_ok hc7
  obtain ⟨cIx, ta8, tb8, hc8, hk8, rfl⟩ := M.bind_ok hk7
  obtain ⟨hcIx, rfl⟩ := M.call_ok hc8
  cases hsol : (c.isSol release.paymentMint && exchange.isSelling) with
  | true =>
    rw [hsol] at hk8
    obtain ⟨u2, ta9, tb9, hc9, hk9, rfl⟩ := M.bind_ok hk8
    exact absurd hc9 (fun hx => M.throw_not_ok hx)
  | false =>
  rw [hsol] at hk8
  obtain ⟨u2, ta9, tb9, hc9, hk9, rfl⟩ := M.bind_ok hk8
  obtain ⟨_, rfl⟩ := M.pure_ok hc9
  obtain ⟨tx, ta10, tb10, hc10, hk10, rfl⟩ := M.bind_ok hk9
  obtain ⟨bh, hbh, rfl, rfl⟩ := M.finalize_ok hc10
  obtain ⟨txid, ta11, tb11, hc11, hk11, rfl⟩ := M.bind_ok hk10
  obtain ⟨hsend, rfl⟩ := M.sendTx_ok hc11
  obtain ⟨u3, ta12, tb12, hc12, hk12, rfl⟩ := M.bind_ok hk11
  obtain rfl := M.parsedTx_ok hc12
  obtain ⟨rfl, rfl⟩ := M.pure_ok hk12
  refine ⟨_, txid, Event.parsedTx txid "finalized", ?_, rfl, ⟨bh, hbh, rfl⟩,
    hsend, Or.inr ⟨"finalized", rfl⟩⟩
  simp only [List.nil_append, List.append_nil, List.cons_append]
  exact List.Sublist.cons₂ _ (List.Sublist.cons₂ _ (List.nil_sublist _))

theorem Exchanges.exchangeCancel_shape {a : ExchangeArg × PK} {w : World} {v : Ret}
    {t : List Event} (h : Exchanges.exchangeCancel a w = (Except.ok v, t)) :
    SubmitsViaWallet w t := by
  obtain ⟨exchangeArg, releasePublicKey⟩ := a
  unfold Exchanges.exchangeCancel at h
  obtain ⟨c, ta1, tb1, hc1, hk1, rfl⟩ := M.bind_ok h
  obtain ⟨rfl, rfl⟩ := M.ask_ok hc1
  obtain ⟨u1, ta2, tb2, hc2, hk2, rfl⟩ := M.bind_ok hk1
  obtain ⟨hup, rfl⟩ := M.call_ok hc2
  obtain ⟨exchange, ta3, tb3, hc3, hk3, rfl⟩ := M.bind_ok hk2
  obtain ⟨hexa, rfl⟩ := M.call_ok hc3
  obtain ⟨a1, ta4, tb4, hc4, hk4, rfl⟩ := M.bind_ok hk3
  obtain ⟨hata1, rfl⟩ := M.call_ok hc4
  obtain ⟨tx, ta5, tb5, hc5, hk5, rfl⟩ := M.bind_ok hk4
  obtain ⟨bh, hbh, rfl, rfl⟩ := M.finalize_ok hc5
  obtain ⟨txid, ta6, tb6, hc6, hk6, rfl⟩ := M.bind_ok hk5
  obtain ⟨hsend, rfl⟩ := M.sendTx_ok hc6
  obtain ⟨u2, ta7, tb7, hc7, hk7, rfl⟩ := M.bind_ok hk6
  obtain rfl := M.parsedTx_ok hc7
  obtain ⟨rfl, rfl⟩ := M.pure_ok hk7
  refine ⟨_, txid, Event.parsedTx txid "confirmed", ?_, rfl, ⟨bh, hbh, rfl⟩,
    hsend, Or.inr ⟨"confirmed", rfl⟩⟩
  simp only [List.nil_append, List.append_nil, List.cons_append]
  exact List.Sublist.cons₂ _ (List.Sublist.cons₂ _ (List.nil_sublist _))

theorem Releases.purchaseViaHub_shape {a : PK × PK} {w : World} {v : Ret}
    {t : List Event} (h : Releases.purchaseViaHubBody a w = (Except.ok v, t)) :
    SubmitsViaWallet w t ∧ RefetchesAndReturns w v t := by
  obtain ⟨releasePublicKey, hubPublicKey⟩ := a
  unfold Releases.purchaseViaHubBody at h
  obtain ⟨c, ta1, tb1, hc1, hk1, rfl⟩ := M.bind_ok h
  obtain ⟨rfl, rfl⟩ := M.ask_ok hc1
  obtain ⟨u1, ta2, tb2, hc2, hk2, rfl⟩ := M.bind_ok hk1
  obtain ⟨hup, rfl⟩ := M.call_ok hc2
  obtain ⟨release, ta3, tb3, hc3, hk3, rfl⟩ := M.bind_ok hk2
  obtain ⟨hrel, rfl⟩ := M.call_ok hc3
  obtain ⟨a1, ta4, tb4, hc4, hk4, rfl⟩ := M.bind_ok hk3
  obtain ⟨hata1, rfl⟩ := M.call_ok hc4
  obtain ⟨⟨rrta, rrtaIx⟩, ta5, tb5, hc5, hk5, rfl⟩ := M.bind_ok hk4
  obtain ⟨hata2, rfl⟩ := M.call_ok hc5
  obtain ⟨hub, ta6, tb6, hc6, hk6, rfl⟩ := M.bind_ok hk5
  obtain ⟨hhub, rfl⟩ := M.call_ok hc6
  obtain ⟨a3, ta7, tb7, hc7, hk7, rfl⟩ := M.bind_ok hk6
  obtain ⟨hata3, rfl⟩ := M.call_ok hc7
  obtain ⟨sp, ta8, tb8, hc8, hk8, rfl⟩ := M.bind_ok hk7
  simp only [Prod.mk.injEq] at hc8
  obtain ⟨hsp, rfl⟩ := hc8.imp_right Eq.symm
  obtain ⟨ub, ta9, tb9, hc9, hk9, rfl⟩ := M.bind_ok hk8
  obtain ⟨hub2, rfl⟩ := M.call_ok hc9
  by_cases hlt : (ub < (release.price : ℚ) / 1000000 +
      (release.price : ℚ) / 1000000 * (hub.referralFee : ℚ) / 1000000)
  · rw [if_pos hlt] at hk9
    obtain ⟨routes, ta10, tb10, hc10, hk10, rfl⟩ := M.bind_ok hk9
    obtain ⟨u2, ta11, tb11, hc11, hk11, rfl⟩ := M.bind_ok hk10
    obtain ⟨u3, ta12, tb12, hc12, hk12, rfl⟩ := M.bind_ok hk11
    exact absurd hc12 (fun hx => M.throw_not_ok hx)
  rw [if_neg hlt] at hk9
  obtain ⟨u2, ta10, tb10, hc10, hk10, rfl⟩ := M.bind_ok hk9
  obtain ⟨_, rfl⟩ := M.pure_ok hc10
  cases rrtaIx with
  | some ix =>
    obtain ⟨u3, ta11, tb11, hc11, hk11, rfl⟩ := M.bind_ok hk10
    exact absurd hc11 (fun hx => M.throw_not_ok hx)
  | none =>
  obtain ⟨u3, ta11, tb11, hc11, hk11, rfl⟩ := M.bind_ok hk10
  obtain ⟨_, rfl⟩ := M.pure_ok hc11
  obtain ⟨tx, ta12, tb12, hc12, hk12, rfl⟩ := M.bind_ok hk11
  obtain ⟨bh, hbh, rfl, rfl⟩ := M.finalize_ok hc12
  obtain ⟨txid, ta13, tb13, hc13, hk13, rfl⟩ := M.bind_ok hk12
  obtain ⟨hsend, hconf, rfl⟩ := M.sendConfirm_ok hc13
  obtain ⟨u4, ta14, tb14, hc14, hk14, rfl⟩ := M.bind_ok hk13
  obtain rfl := M.axiosGet_ok hc14
  obtain ⟨resp, ta15, tb15, hc15, hk15, rfl⟩ := M.bind_ok hk14
  obtain ⟨hrest, rfl⟩ := M.ninaGet_ok hc15
  obtain ⟨rfl, rfl⟩ := M.pure_ok hk15
  constructor
  · refine ⟨_, txid, Event.confirmTx txid, ?_, rfl, ⟨bh, hbh, rfl⟩, hsend, Or.inl rfl⟩
    simp only [List.nil_append, List.append_nil, List.cons_append]
    exact List.Sublist.cons _ (List.Sublist.cons₂ _ (List.Sublist.cons₂ _
      (List.Sublist.cons _ (List.Sublist.cons _ (List.nil_sublist _)))))
  · refine ⟨_, txid, _, _, _, resp, ?_, hsend, hrest, Or.inr rfl⟩
    simp only [List.nil_append, List.append_nil, List.cons_append]
    exact List.Sublist.cons _ (List.Sublist.cons₂ _ (List.Sublist.cons₂ _
      (List.Sublist.cons _ (List.Sublist.cons₂ _ (List.nil_sublist _)))))

theorem Releases.releasePurchase_not_ok {a : PK} {w : World} {v : Ret}
    {t : List Event} (h : Releases.releasePurchaseBody a w = (Except.ok v, t)) :
    False := by
  unfold Releases.releasePurchaseBody at h
  obtain ⟨c, ta1, tb1, hc1, hk1, rfl⟩ := M.bind_ok h
  obtain ⟨rfl, rfl⟩ := M.ask_ok hc1
  obtain ⟨u1, ta2, tb2, hc2, hk2, rfl⟩ := M.bind_ok hk1
  obtain ⟨hup, rfl⟩ := M.call_ok hc2
  obtain ⟨release, ta3, tb3, hc3, hk3, rfl⟩ := M.bind_ok hk2
  obtain ⟨hrel, rfl⟩ := M.call_ok hc3
  obtain ⟨a1, ta4, tb4, hc4, hk4, rfl⟩ := M.bind_ok hk3
  obtain ⟨hata1, rfl⟩ := M.call_ok hc4
  obtain ⟨⟨rrta, rrtaIx⟩, ta5, tb5, hc5, hk5, rfl⟩ := M.bind_ok hk4
  obtain ⟨hata2, rfl⟩ := M.call_ok hc5
  cases hsol : c.isSol release.paymentMint with
  | true =>
    rw [hsol] at hk5
    obtain ⟨u2, ta6, tb6, hc6, hk6, rfl⟩ := M.bind_ok hk5
    exact absurd hc6 (fun hx => M.throw_not_ok hx)
  | false =>
  rw [hsol] at hk5
  obtain ⟨u2, ta6, tb6, hc6, hk6, rfl⟩ := M.bind_ok hk5
  obtain ⟨_, rfl⟩ := M.pure_ok hc6
  obtain ⟨tx, ta7, tb7, hc7, hk7, rfl⟩ := M.bind_ok hk6
  obtain ⟨bh, hbh, rfl, rfl⟩ := M.finalize_ok hc7
  obtain ⟨txid, ta8, tb8, hc8, hk8, rfl⟩ := M.bind_ok hk7
  obtain ⟨hsend, hconf, rfl⟩ := M.sendConfirm_ok hc8
  exact M.throw_not_ok hk8

theorem Releases.releaseInitViaHub_shape {a : ReleaseInitViaHubArgs} {w : World}
    {v : Ret} {t : List Event}
    (h : Releases.releaseInitViaHubBody a w = (Except.ok v, t)) :
    SubmitsViaWallet w t ∧ RefetchesAndReturns w v t := by
  unfold Releases.releaseInitViaHubBody at h
  obtain ⟨c, ta1, tb1, hc1, hk1, rfl⟩ := M.bind_ok h
  obtain ⟨rfl, rfl⟩ := M.ask_ok hc1
  obtain ⟨u1, ta2, tb2, hc2, hk2, rfl⟩ := M.bind_ok hk1
  obtain ⟨hup, rfl⟩ := M.call_ok hc2
  obtain ⟨hub, ta3, tb3, hc3, hk3, rfl⟩ := M.bind_ok hk2
  obtain ⟨hhub, rfl⟩ := M.call_ok hc3
  obtain ⟨mIx, ta4, tb4, hc4, hk4, rfl⟩ := M.bind_ok hk3
  obtain ⟨hmIx, rfl⟩ := M.call_ok hc4
  obtain ⟨a1, ta5, tb5, hc5, hk5, rfl⟩ := M.bind_ok hk4
  obtain ⟨hata1, rfl⟩ := M.call_ok hc5
  obtain ⟨a2, ta6, tb6, hc6, hk6, rfl⟩ := M.bind_ok hk5
  obtain ⟨hata2, rfl⟩ := M.call_ok hc6
  obtain ⟨a3, ta7, tb7, hc7, hk7, rfl⟩ := M.bind_ok hk6
  obtain ⟨hata3, rfl⟩ := M.call_ok hc7
  obtain ⟨tx1, ta8, tb8, hc8, hk8, rfl⟩ := M.bind_ok hk7
  obtain ⟨bh, hbh, rfl, rfl⟩ := M.finalize_ok hc8
  obtain ⟨txid, ta9, tb9, hc9, hk9, rfl⟩ := M.bind_ok hk8
  obtain ⟨hsend, hconf, rfl⟩ := M.sendConfirm_ok hc9
  obtain ⟨resp, ta10, tb10, hc10, hk10, rfl⟩ := M.bind_ok hk9
  obtain ⟨hrest, rfl⟩ := M.ninaGet_ok hc10
  obtain ⟨rfl, rfl⟩ := M.pure_ok hk10
  constructor
  · exact ⟨_, txid, _, by simp, rfl, ⟨bh, hbh, rfl⟩, hsend, Or.inl rfl⟩
  · exact ⟨_, txid, _, _, _, resp, by simp, hsend, hrest, Or.inr rfl⟩

theorem Releases.releaseInit_shape {a : ReleaseInitArgs} {w : World}
    {v : Ret} {t : List Event}
    (h : Releases.releaseInitBody a w = (Except.ok v, t)) :
    SubmitsViaWallet w t ∧ RefetchesAndReturns w v t := by
  unfold Releases.releaseInitBody at h
  obtain ⟨c, ta1, tb1, hc1, hk1, rfl⟩ := M.bind_ok h
  obtain ⟨rfl, rfl⟩ := M.ask_ok hc1
  obtain ⟨u1, ta2, tb2, hc2, hk2, rfl⟩ := M.bind_ok hk1
  obtain ⟨hup, rfl⟩ := M.call_ok hc2
  obtain ⟨mIx, ta3, tb3, hc3, hk3, rfl⟩ := M.bind_ok hk2
  obtain ⟨hmIx, rfl⟩ := M.call_ok hc3
  obtain ⟨a1, ta4, tb4, hc4, hk4, rfl⟩ := M.bind_ok hk3
  obtain ⟨hata1, rfl⟩ := M.call_ok hc4
  obtain ⟨a2, ta5, tb5, hc5, hk5, rfl⟩ := M.bind_ok hk4
  obtain ⟨hata2, rfl⟩ := M.call_ok hc5
  obtain ⟨a3, ta6, tb6, hc6, hk6, rfl⟩ := M.bind_ok hk5
  obtain ⟨hata3, rfl⟩ := M.call_ok hc6
  obtain ⟨tx1, ta7, tb7, hc7, hk7, rfl⟩ := M.bind_ok hk6
  obtain ⟨bh, hbh, rfl, rfl⟩ := M.finalize_ok hc7
  obtain ⟨txid, ta8, tb8, hc8, hk8, rfl⟩ := M.bind_ok hk7
  obtain ⟨hsend, hconf, rfl⟩ := M.sendConfirm_ok hc8
  obtain ⟨resp, ta9, tb9, hc9, hk9, rfl⟩ := M.bind_ok hk8
  obtain ⟨hrest, rfl⟩ := M.ninaGet_ok hc9
  obtain ⟨rfl, rfl⟩ := M.pure_ok hk9
  constructor
  · exact ⟨_, txid, _, by simp, rfl, ⟨bh, hbh, rfl⟩, hsend, Or.inl rfl⟩
  · exact ⟨_, txid, _, _, _, resp, by simp, hsend, hrest, Or.inr rfl⟩

theorem Releases.collectRoyaltyForRelease_shape {a : Option PK × Option PK}
    {w : World} {v : Ret} {t : List Event}
    (h : Releases.collectRoyaltyForReleaseBody a w = (Except.ok v, t)) :
    (t = [] ∧ v = Ret.undefined) ∨ (SubmitsViaWallet w t ∧ RefetchesAndReturns w v t) := by
  obtain ⟨recipient, rpk⟩ := a
  unfold Releases.collectRoyaltyForReleaseBody at h
  cases rpk with
  | none =>
    obtain ⟨rfl, rfl⟩ := M.pure_ok h
    exact Or.inl ⟨rfl, rfl⟩
  | some r =>
  cases recipient with
  | none =>
    obtain ⟨rfl, rfl⟩ := M.pure_ok h
    exact Or.inl ⟨rfl, rfl⟩
  | some rec =>
  right
  obtain ⟨c, ta1, tb1, hc1, hk1, rfl⟩ := M.bind_ok h
  obtain ⟨rfl, rfl⟩ := M.ask_ok hc1
  obtain ⟨u1, ta2, tb2, hc2, hk2, rfl⟩ := M.bind_ok hk1
  obtain ⟨hup, rfl⟩ := M.call_ok hc2
  obtain ⟨release, ta3, tb3, hc3, hk3, rfl⟩ := M.bind_ok hk2
  obtain ⟨hrel, rfl⟩ := M.call_ok hc3
  obtain ⟨a1, ta4, tb4, hc4, hk4, rfl⟩ := M.bind_ok hk3
  obtain ⟨hata1, rfl⟩ := M.call_ok hc4
  obtain ⟨tx, ta5, tb5, hc5, hk5, rfl⟩ := M.bind_ok hk4
  obtain ⟨bh, hbh, rfl, rfl⟩ := M.finalize_ok hc5
  obtain ⟨txid, ta6, tb6, hc6, hk6, rfl⟩ := M.bind_ok hk5
  obtain ⟨hsend, hconf, rfl⟩ := M.sendConfirm_ok hc6
  obtain ⟨resp, ta7, tb7, hc7, hk7, rfl⟩ := M.bind_ok hk6
  obtain ⟨hrest, rfl⟩ := M.ninaGet_ok hc7
  obtain ⟨rfl, rfl⟩ := M.pure_ok hk7
  constructor
  · exact ⟨_, txid, _, by simp, rfl, ⟨bh, hbh, rfl⟩, hsend, Or.inl rfl⟩
  · exact ⟨_, txid, _, _, _, resp, by simp, hsend, hrest, Or.inr rfl⟩

theorem Releases.addRoyaltyRecipient_shape {a : PK × ℚ × PK} {w : World}
    {v : Ret} {t : List Event}
    (h : Releases.addRoyaltyRecipientBody a w = (Except.ok v, t)) :
    SubmitsViaWallet w t ∧ RefetchesAndReturns w v t := by
  obtain ⟨recipientAddress, percentShare, releasePublicKey⟩ := a
  unfold Releases.addRoyaltyRecipientBody at h
  obtain ⟨c, ta1, tb1, hc1, hk1, rfl⟩ := M.bind_ok h
  obtain ⟨rfl, rfl⟩ := M.ask_ok hc1
  obtain ⟨u1, ta2, tb2, hc2, hk2, rfl⟩ := M.bind_ok hk1
  obtain ⟨hup, rfl⟩ := M.call_ok hc2
  obtain ⟨release, ta3, tb3, hc3, hk3, rfl⟩ := M.bind_ok hk2
  obtain ⟨hrel, rfl⟩ := M.call_ok hc3
  obtain ⟨⟨nrta, nrIx⟩, ta4, tb4, hc4, hk4, rfl⟩ := M.bind_ok hk3
  obtain ⟨hata1, rfl⟩ := M.call_ok hc4
  obtain ⟨⟨atta, atIx⟩, ta5, tb5, hc5, hk5, rfl⟩ := M.bind_ok hk4
  obtain ⟨hata2, rfl⟩ := M.call_ok hc5
  cases nrIx with
  | some ix =>
    obtain ⟨u2, ta6, tb6, hc6, hk6, rfl⟩ := M.bind_ok hk5
    exact absurd hc6 (fun hx => M.throw_not_ok hx)
  | none =>
  obtain ⟨u2, ta6, tb6, hc6, hk6, rfl⟩ := M.bind_ok hk5
  obtain ⟨_, rfl⟩ := M.pure_ok hc6
  cases atIx with
  | some ix =>
    obtain ⟨u3, ta7, tb7, hc7, hk7, rfl⟩ := M.bind_ok hk6
    exact absurd hc7 (fun hx => M.throw_not_ok hx)
  | none =>
  obtain ⟨u3, ta7, tb7, hc7, hk7, rfl⟩ := M.bind_ok hk6
  obtain ⟨_, rfl⟩ := M.pure_ok hc7
  obtain ⟨tx, ta8, tb8, hc8, hk8, rfl⟩ := M.bind_ok hk7
  obtain ⟨bh, hbh, rfl, rfl⟩ := M.finalize_ok hc8
  obtain ⟨txid, ta9, tb9, hc9, hk9, rfl⟩ := M.bind_ok hk8
  obtain ⟨hsend, hconf, rfl⟩ := M.sendConfirm_ok hc9
  obtain ⟨resp, ta10, tb10, hc10, hk10, rfl⟩ := M.bind_ok hk9
  obtain ⟨hrest, rfl⟩ := M.ninaGet_ok hc10
  obtain ⟨rfl, rfl⟩ := M.pure_ok hk10
  constructor
  · exact ⟨_, txid, _, by simp, rfl, ⟨bh, hbh, rfl⟩, hsend, Or.inl rfl⟩
  · exact ⟨_, txid, _, _, _, resp, by simp, hsend, hrest, Or.inr rfl⟩

theorem Op.run_ok (o : Op) (a : o.Arg) (w : World) :
    ∃ v t, o.run a w = (Except.ok v, t) := by
  unfold Op.run M.tryCatch
  rcases hb : o.body a w with ⟨r, tb⟩
  cases r with
  | ok x => exact ⟨x, tb, by simp [hb]⟩
  | error e => exact ⟨o.catchVal e, tb ++ [Event.logErr e], by simp [hb]⟩

theorem Op.run_catch (o : Op) (a : o.Arg) (w : World) (e : Err) (tb : List Event)
    (hb : o.body a w = (Except.error e, tb)) :
    o.run a w = (Except.ok (o.catchVal e), tb ++ [Event.logErr e]) := by
  unfold Op.run M.tryCatch
  simp [hb]

/-- The exported operations that submit transactions and wrap their
bodies in `try { .. } catch` — every exported transaction-submitting
function of the four source files except `exchangeCancel`, which has no
`try`/`catch`. -/
def exportedTxOps : List Op :=
  [Hubs.hubInitOp, Hubs.hubUpdateConfigOp, Hubs.hubAddCollaboratorOp,
   Hubs.hubUpdateCollaboratorPermissionOp, Hubs.hubRemoveCollaboratorOp,
   Hubs.hubContentToggleVisibilityOp, Hubs.hubAddReleaseOp,
   Hubs.postInitViaHubOp, Hubs.postUpdateViaHubOp,
   Hubs.collectRoyaltyForReleaseViaHubOp, Hubs.hubWithdrawOp,
   Exchanges.exchangeInitOp, Exchanges.exchangeAcceptOp,
   Releases.purchaseViaHubOp, Releases.releasePurchaseOp,
   Releases.releaseInitViaHubOp, Releases.releaseInitOp,
   Releases.closeReleaseOp, Releases.collectRoyaltyForReleaseOp,
   Releases.addRoyaltyRecipientOp, CreditHubs.hubInitWithCreditOp]

/-- The bodies of every exported transaction-submitting function that
sets `feePayer`/`recentBlockhash` itself and submits through
`wallet.sendTransaction` — all of them except `hubInitWithCredit`
(which submits through anchor's `.rpc()`). -/
def c3Bodies : List ((A : Type) × (A → M Ret)) :=
  [⟨_, Hubs.hubInitBody⟩, ⟨_, Hubs.hubUpdateConfigBody⟩,
   ⟨_, Hubs.hubAddCollaboratorBody⟩, ⟨_, Hubs.hubUpdateCollaboratorPermissionBody⟩,
   ⟨_, Hubs.hubRemoveCollaboratorBody⟩, ⟨_, Hubs.hubContentToggleVisibilityBody⟩,
   ⟨_, Hubs.hubAddReleaseBody⟩, ⟨_, Hubs.postInitViaHubBody⟩,
   ⟨_, Hubs.postUpdateViaHubBody⟩, ⟨_, Hubs.collectRoyaltyForReleaseViaHubBody⟩,
   ⟨_, Hubs.hubWithdrawBody⟩, ⟨_, Exchanges.exchangeInitBody⟩,
   ⟨_, Exchanges.exchangeAcceptBody⟩, ⟨_, Exchanges.exchangeCancel⟩,
   ⟨_, Releases.purchaseViaHubBody⟩, ⟨_, Releases.releasePurchaseBody⟩,
   ⟨_, Releases.releaseInitViaHubBody⟩, ⟨_, Releases.releaseInitBody⟩,
   ⟨_, Releases.closeReleaseBody⟩, ⟨_, Releases.collectRoyaltyForReleaseBody⟩,
   ⟨_, Releases.addRoyaltyRecipientBody⟩]

/-- The bodies of the exported transaction-submitting functions that,
after confirmation, re-fetch the affected state from the REST API and
return it. -/
def c2Bodies : List ((A : Type) × (A → M Ret)) :=
  [⟨_, Hubs.hubInitBody⟩, ⟨_, Hubs.hubUpdateConfigBody⟩,
   ⟨_, Hubs.hubAddCollaboratorBody⟩, ⟨_, Hubs.hubUpdateCollaboratorPermissionBody⟩,
   ⟨_, Hubs.hubRemoveCollaboratorBody⟩, ⟨_, Hubs.hubAddReleaseBody⟩,
   ⟨_, Releases.purchaseViaHubBody⟩, ⟨_, Releases.releasePurchaseBody⟩,
   ⟨_, Releases.releaseInitViaHubBody⟩, ⟨_, Releases.releaseInitBody⟩,
   ⟨_, Releases.closeReleaseBody⟩, ⟨_, Releases.collectRoyaltyForReleaseBody⟩,
   ⟨_, Releases.addRoyaltyRecipientBody⟩]

/-- Decidable equality of call results, so that concrete runs can be
checked by `decide`. -/
instance {ε α : Type} [DecidableEq ε] [DecidableEq α] : DecidableEq (Except ε α) :=
  fun a b =>
    match a, b with
    | .ok x, .ok y =>
      if h : x = y then isTrue (by rw [h])
      else isFalse (by intro hc; cases hc; exact h rfl)
    | .error x, .error y =>
      if h : x = y then isTrue (by rw [h])
      else isFalse (by intro hc; cases hc; exact h rfl)
    | .ok _, .error _ => isFalse (by intro hc; cases hc)
    | .error _, .ok _ => isFalse (by intro hc; cases hc)

/-! ## Concrete sample environments -/

/-- Sample well-known addresses. -/
def sampleIds : Ids :=
  { usdc := 11, wsol := 12, hubCredit := 13, publishingCredit := 14,
    tokenProgram := 15, metaplex := 16, vault := 17 }

/-- A sample environment in which every external call succeeds, no
associated token account needs creation, and the wallet holds enough
USDC. -/
def w0 : World :=
  { programId := 101, walletKey := 7, ids := sampleIds,
    apiEndpoint := "api", envApiEndpoint := "env",
    useProgram := Except.ok (), programAt := Except.ok (),
    createAccountIx := fun _ => Except.ok 88,
    restGet := fun _ _ _ => Except.ok { payload := 5, hubHandle := "handle" },
    hubAccount := fun _ => Except.ok
      { handle := "handle", hubSigner := 21, publishFee := 100, referralFee := 200 },
    releaseAccount := fun _ => Except.ok
      { releaseMint := 31, paymentMint := 32, releaseSigner := 33,
        royaltyTokenAccount := 34, price := 1000000, resalePercentage := 100000,
        royaltyRecipients := [21] },
    exchangeAccount := fun _ => Except.ok
      { initializer := 41, initializerExpectedMint := 42,
        initializerSendingMint := 43, exchangeEscrowTokenAccount := 44,
        exchangeSigner := 45, expectedAmount := 5, initializerAmount := 1,
        isSelling := true },
    blockhash := Except.ok 99,
    send := fun _ => Except.ok 555,
    rpc := fun _ => Except.ok 556,
    confirm := fun _ => Except.ok (),
    parsed := fun _ _ => Except.ok (),
    axios := fun _ => Except.ok (),
    ata := fun _ _ => Except.ok (77, none),
    mintIxs := fun _ => Except.ok [60, 61],
    uiToNative := fun _ _ => 123,
    usdcBalance := Except.ok 1000000,
    tokenAccounts := fun _ _ => Except.ok [500],
    solPrice := Except.ok 20,
    jupQuote := fun _ => Except.ok [],
    jupSwapPost := fun _ => Except.ok (),
    isSol := fun _ => false,
    freshKey := fun n => 900 + n,
    nowMs := 1700000000000 }

/-- `w0` with a failing on-chain exchange-account fetch. -/
def wExchangeErr : World := { w0 with exchangeAccount := fun _ => Except.error 7 }

/-- `w0` with a failing REST GET. -/
def wRestErr : World := { w0 with restGet := fun _ _ _ => Except.error 7 }

/-- `w0` with a different stream of generated keypairs. -/
def wFresh : World := { w0 with freshKey := fun n => 950 + n }

/-- A sample `hubParams` object as a caller would pass it. -/
def p0 : HubParams :=
  { handle := "h", publishFee := .num 1, referralFee := .num 1, hubSignerBump := none }

/-! ## Claim C1 — error handling -/

/-- Claim C1, counterexample: `exchangeCancel` has no `try`/`catch`, so
when the on-chain exchange-account fetch throws, the exception escapes
to the caller (`Except.error`, not a logged sentinel); likewise the
read-only fetch helpers (here `Hub.fetch`) propagate a failing REST GET.
This refutes "no exception escapes to the caller" as stated. -/
theorem C1_counterexample :
    Exchanges.exchangeCancel
        ({ publicKey := 41, isSelling := true, expectedAmount := 5 }, 50) wExchangeErr =
      (Except.error 7, []) ∧
    Hubs.fetch "x" false wRestErr =
      (Except.error 7, [Event.restGet "/hubs/x" none false]) :=
  ⟨by decide, by decide⟩

/-- Claim C1 (amended): every exported transaction-submitting operation
except `exchangeCancel` wraps its body in `try`/`catch`, so no exception
escapes (part 1); a body exception is logged to the console and the
operation returns its catch sentinel (part 2); and that sentinel is
`undefined`, `false`, or an `{ error }` object wrapping the error —
richer than the boolean/false sentinel the original claim allows
(part 3).  `exchangeCancel` and the read-only fetch helpers propagate
exceptions (see the counterexample). -/
theorem C1_amended :
    (∀ op ∈ exportedTxOps, ∀ (a : op.Arg) (w : World),
        ∃ v t, op.run a w = (Except.ok v, t)) ∧
    (∀ op ∈ exportedTxOps, ∀ (a : op.Arg) (w : World) (e : Err) (tb : List Event),
        op.body a w = (Except.error e, tb) →
        op.run a w = (Except.ok (op.catchVal e), tb ++ [Event.logErr e])) ∧
    (∀ op ∈ exportedTxOps, ∀ e : Err,
        op.catchVal e = Ret.undefined ∨ op.catchVal e = Ret.bool false ∨
        op.catchVal e = Ret.errWrap e) := by
  refine ⟨fun op _ a w => Op.run_ok op a w,
          fun op _ a w e tb hb => Op.run_catch op a w e tb hb,
          fun op hop e => ?_⟩
  simp only [exportedTxOps, List.mem_cons, List.not_mem_nil, or_false] at hop
  rcases hop with rfl|rfl|rfl|rfl|rfl|rfl|rfl|rfl|rfl|rfl|rfl|rfl|rfl|rfl|rfl|rfl|rfl|rfl|rfl|rfl|rfl <;>
    first
      | exact Or.inl rfl
      | exact Or.inr (Or.inl rfl)
      | exact Or.inr (Or.inr rfl)

/-- Witness for C1 (amended): `hubInit` at a concrete input returns
normally. -/
theorem C1_amended_witness :
    ∃ v t, Hubs.hubInitOp.run p0 w0 = (Except.ok v, t) :=
  C1_amended.1 Hubs.hubInitOp (by simp [exportedTxOps]) p0 w0

/-! ## Claim C2 — post-confirmation re-fetch -/

/-- The transaction `hubWithdraw` submits at `w0` for hub `3`. -/
def hubWithdrawTx0 : Tx :=
  { method := "hubWithdraw",
    accounts := [("authority", 7), ("hub", 3), ("hubSigner", 821386409),
                 ("withdrawTarget", 77), ("withdrawDestination", 77),
                 ("withdrawMint", 11), ("tokenProgram", 15)],
    pre := [], remaining := [], signers := [], feePayer := some 7,
    blockhash := some 99 }

/-- The trace of `hubWithdraw` at `w0` for hub `3`. -/
def hubWithdrawTrace0 : List Event :=
  [Event.restGet "/hubs/3" none false, Event.sendTx hubWithdrawTx0,
   Event.confirmTx 555]

/-- Claim C2, counterexample: `hubWithdraw` submits and confirms a
transaction and then returns `true` — it performs no REST re-fetch after
confirmation and returns no re-fetched state, refuting "every exported
transaction-submitting function … re-fetches the affected state from
the REST indexing API and returns that re-fetched state". -/
theorem C2_counterexample :
    Hubs.hubWithdrawBody 3 w0 = (Except.ok (Ret.bool true), hubWithdrawTrace0) ∧
    Event.sendTx hubWithdrawTx0 ∈ hubWithdrawTrace0 ∧
    ¬ RefetchesAndReturns w0 (Ret.bool true) hubWithdrawTrace0 := by
  refine ⟨by decide, by decide, ?_⟩
  rintro ⟨tx, txid_, p, ps, wad, r, _, _, _, hv | hv⟩ <;> exact Ret.noConfusion hv

/-- Claim C2 (amended): of the exported transaction-submitting
functions, exactly `hubInit`, `hubUpdateConfig`, `hubAddCollaborator`,
`hubUpdateCollaboratorPermission`, `hubRemoveCollaborator`,
`hubAddRelease`, `purchaseViaHub`, `releaseInitViaHub`, `releaseInit`,
`closeRelease`, `collectRoyaltyForRelease` and `addRoyaltyRecipient`
follow the submit–confirm–re-fetch–return discipline: on every run that
returns without a caught error and submitted a transaction, the trace
contains, in order, the wallet submission, a confirmation poll of its
transaction id, and a REST GET whose result is what the function
returns.  `releasePurchase` is in the list vacuously: it always throws
at the undeclared `endpoints` reference after confirmation and so never
returns normally (part 2).  The remaining functions (`hubWithdraw`,
`hubContentToggleVisibility`, `postInitViaHub`, `postUpdateViaHub`,
`collectRoyaltyForReleaseViaHub`, `exchangeInit`, `exchangeAccept`,
`exchangeCancel`, `hubInitWithCredit`) return `true`, derived
addresses, transaction ids or account data instead. -/
theorem C2_amended :
    (∀ b ∈ c2Bodies, ∀ (a : b.1) (w : World) (v : Ret) (t : List Event),
        b.2 a w = (Except.ok v, t) → (∃ tx, Event.sendTx tx ∈ t) →
        RefetchesAndReturns w v t) ∧
    (∀ (a : PK) (w : World) (v : Ret) (t : List Event),
        Releases.releasePurchaseBody a w = (Except.ok v, t) → False) := by
  constructor
  · intro b hb
    simp only [c2Bodies, List.mem_cons, List.not_mem_nil, or_false] at hb
    rcases hb with rfl|rfl|rfl|rfl|rfl|rfl|rfl|rfl|rfl|rfl|rfl|rfl|rfl
    · intro a w v t h _; exact (Hubs.hubInit_shape h).2
    · intro a w v t h _; exact (Hubs.hubUpdateConfig_shape h).2
    · intro a w v t h _; exact (Hubs.hubAddCollaborator_shape h).2
    · intro a w v t h _; exact (Hubs.hubUpdateCollaboratorPermission_shape h).2
    · intro a w v t h _; exact (Hubs.hubRemoveCollaborator_shape h).2
    · intro a w v t h _; exact (Hubs.hubAddRelease_shape h).2
    · intro a w v t h _; exact (Releases.purchaseViaHub_shape h).2
    · intro a w v t h _; exact (Releases.releasePurchase_not_ok h).elim
    · intro a w v t h _; exact (Releases.releaseInitViaHub_shape h).2
    · intro a w v t h _; exact (Releases.releaseInit_shape h).2
    · intro a w v t h _; exact (Releases.closeRelease_shape h).2
    · intro a w v t h hs
      rcases Releases.collectRoyaltyForRelease_shape h with ⟨rfl, rfl⟩ | ⟨_, h2⟩
      · rcases hs with ⟨tx, htx⟩; cases htx
      · exact h2
    · intro a w v t h _; exact (Releases.addRoyaltyRecipient_shape h).2
  · intro a w v t h; exact Releases.releasePurchase_not_ok h

/-- The transaction `closeRelease` submits at `w0` for release `3`. -/
def closeReleaseTx0 : Tx :=
  { method := "releaseCloseEdition",
    accounts := [("authority", 7), ("release", 3), ("releaseSigner", 33),
                 ("releaseMint", 31)],
    pre := [], remaining := [], signers := [], feePayer := some 7,
    blockhash := some 99 }

/-- Witness for C2 (amended): `closeRelease` at a concrete input
re-fetches and returns the release. -/
theorem C2_amended_witness :
    RefetchesAndReturns w0 (Ret.releaseWrap { payload := 5, hubHandle := "handle" })
      [Event.sendTx closeReleaseTx0, Event.confirmTx 555,
       Event.restGet "/releases/3" none false] :=
  C2_amended.1 ⟨_, Releases.closeReleaseBody⟩ (by simp [c2Bodies]) 3 w0
    (Ret.releaseWrap { payload := 5, hubHandle := "handle" })
    [Event.sendTx closeReleaseTx0, Event.confirmTx 555,
     Event.restGet "/releases/3" none false]
    (by decide) ⟨closeReleaseTx0, by simp⟩

/-! ## Claim C3 — fee payer, blockhash, wallet submission, confirmation -/

/-- Claim C3, counterexample: `hubInitWithCredit` submits its
transaction through anchor's `.rpc()` — its trace contains an `.rpc()`
submission and a confirmation poll but no `wallet.sendTransaction`
event, and it never sets `feePayer`/`recentBlockhash` on a transaction
object; it then returns (`false`, after the `this.fetch` `TypeError` is
caught).  This refutes "every exported transaction-submitting function
… sets the transaction's fee payer … and submits the signed transaction
via the wallet" as stated. -/
theorem C3_counterexample :
    CreditHubs.hubInitWithCreditOp.run p0 w0 =
      (Except.ok (Ret.bool false),
       [Event.rpcSend "hubInitWithCredit", Event.parsedTx 556 "confirmed",
        Event.logErr jsRefError]) ∧
    ∀ tx : Tx,
      Event.sendTx tx ∉
        [Event.rpcSend "hubInitWithCredit", Event.parsedTx 556 "confirmed",
         Event.logErr jsRefError] := by
  refine ⟨by decide, ?_⟩
  intro tx h
  simp only [List.mem_cons, List.not_mem_nil, or_false] at h
  rcases h with h | h | h <;> exact Event.noConfusion h

/-- Claim C3 (amended): every exported transaction-submitting function
except `hubInitWithCredit` — including `exchangeCancel` — obeys the
wallet-submission discipline: on every run that returns without a
caught error and submitted a transaction, the trace contains, in order,
a `wallet.sendTransaction` of a transaction whose `feePayer` is the
connected wallet's public key and whose `recentBlockhash` is the
fetched blockhash, followed by a confirmation poll
(`getConfirmTransaction` or `getParsedTransaction`) of the returned
transaction id.  (`postUpdateViaHub` and `releasePurchase` satisfy this
vacuously: each always throws — at the undeclared `hub` respectively
`endpoints` reference — before returning normally.) -/
theorem C3_amended :
    ∀ b ∈ c3Bodies, ∀ (a : b.1) (w : World) (v : Ret) (t : List Event),
      b.2 a w = (Except.ok v, t) → (∃ tx, Event.sendTx tx ∈ t) →
      SubmitsViaWallet w t := by
  intro b hb
  simp only [c3Bodies, List.mem_cons, List.not_mem_nil, or_false] at hb
  rcases hb with rfl|rfl|rfl|rfl|rfl|rfl|rfl|rfl|rfl|rfl|rfl|rfl|rfl|rfl|rfl|rfl|rfl|rfl|rfl|rfl|rfl
  · intro a w v t h _; exact (Hubs.hubInit_shape h).1
  · intro a w v t h _; exact (Hubs.hubUpdateConfig_shape h).1
  · intro a w v t h _; exact (Hubs.hubAddCollaborator_shape h).1
  · intro a w v t h _; exact (Hubs.hubUpdateCollaboratorPermission_shape h).1
  · intro a w v t h _; exact (Hubs.hubRemoveCollaborator_shape h).1
  · intro a w v t h _; exact Hubs.hubContentToggleVisibility_shape h
  · intro a w v t h _; exact (Hubs.hubAddRelease_shape h).1
  · intro a w v t h _; exact Hubs.postInitViaHub_shape h
  · intro a w v t h _; exact (@Hubs.postUpdateViaHub_not_ok a w v t h).elim
  · intro a w v t h _; exact Hubs.collectRoyaltyForReleaseViaHub_shape h
  · intro a w v t h _; exact Hubs.hubWithdraw_shape h
  · intro a w v t h _; exact Exchanges.exchangeInit_shape h
  · intro a w v t h _; exact Exchanges.exchangeAccept_shape h
  · intro a w v t h _; exact Exchanges.exchangeCancel_shape h
  · intro a w v t h _; exact (Releases.purchaseViaHub_shape h).1
  · intro a w v t h _; exact (Releases.releasePurchase_not_ok h).elim
  · intro a w v t h _; exact (Releases.releaseInitViaHub_shape h).1
  · intro a w v t h _; exact (Releases.releaseInit_shape h).1
  · intro a w v t h _; exact (Releases.closeRelease_shape h).1
  · intro a w v t h hs
    rcases Releases.collectRoyaltyForRelease_shape h with ⟨rfl, rfl⟩ | ⟨h1, _⟩
    · rcases hs with ⟨tx, htx⟩; cases htx
    · exact h1
  · intro a w v t h _; exact (Releases.addRoyaltyRecipient_shape h).1

/-- Witness for C3 (amended): `closeRelease` at a concrete input
submits via the wallet with fee payer and blockhash set and polls for
confirmation. -/
theorem C3_amended_witness :
    SubmitsViaWallet w0
      [Event.sendTx closeReleaseTx0, Event.confirmTx 555,
       Event.restGet "/releases/3" none false] :=
  C3_amended ⟨_, Releases.closeReleaseBody⟩ (by simp [c3Bodies]) 3 w0
    (Ret.releaseWrap { payload := 5, hubHandle := "handle" })
    [Event.sendTx closeReleaseTx0, Event.confirmTx 555,
     Event.restGet "/releases/3" none false]
    (by decide) ⟨closeReleaseTx0, by simp⟩

/-! ## Claim C4 — determinism of the address derivations -/

/-- Claim C4, counterexample: `initializeReleaseAndMint` generates a
fresh mint keypair and derives the `release` address from it, so two
runs with the same program id and the same hub public key (here both
`101` and `3`) derive different `release` (and `hubRelease`) addresses
when the generated keypair differs.  The derivation therefore does not
depend only on the inputs the claim lists. -/
theorem C4_counterexample :
    w0.programId = wFresh.programId ∧
    Releases.initReleaseAndMintBody (some 3) w0 =
      (Except.ok (Ret.initMintRet 960605474 34 900 (some 927003558)), []) ∧
    Releases.initReleaseAndMintBody (some 3) wFresh =
      (Except.ok (Ret.initMintRet 960605524 84 950 (some 927003608)), []) ∧
    (960605474 : PK) ≠ 960605524 :=
  ⟨rfl, by decide, by decide, by decide⟩

/-- Claim C4 (amended): each address derivation is a pure, deterministic
function of the program id, the relevant public keys, the handle or
slug — and, for `initializeReleaseAndMint`, additionally the freshly
generated mint keypair.  Two runs over environments that agree on those
inputs derive identical addresses; no other ambient state (blockhash,
REST responses, balances) can influence them. -/
theorem C4_amended (w1 w2 : World) (hpid : w1.programId = w2.programId)
    (hwk : w1.walletKey = w2.walletKey) :
    (∀ handle : String,
      Hubs.hubInitDerived w1.programId handle w1.walletKey =
        Hubs.hubInitDerived w2.programId handle w2.walletKey) ∧
    (∀ (hub : PK) (slug : String) (rr : Option PK),
      Hubs.postInitViaHubDerived w1.programId hub slug w1.walletKey rr =
        Hubs.postInitViaHubDerived w2.programId hub slug w2.walletKey rr) ∧
    (w1.freshKey 0 = w2.freshKey 0 →
      ∀ hubOpt : Option PK,
        Releases.initReleaseAndMintDerived w1.programId (w1.freshKey 0) hubOpt =
          Releases.initReleaseAndMintDerived w2.programId (w2.freshKey 0) hubOpt) := by
  rw [hpid, hwk]
  exact ⟨fun _ => rfl, fun _ _ _ => rfl, fun hf _ => by rw [hf]⟩

/-- Witness for C4 (amended), at two (equal) concrete environments. -/
theorem C4_amended_witness :
    (∀ handle : String,
      Hubs.hubInitDerived w0.programId handle w0.walletKey =
        Hubs.hubInitDerived w0.programId handle w0.walletKey) ∧
    (∀ (hub : PK) (slug : String) (rr : Option PK),
      Hubs.postInitViaHubDerived w0.programId hub slug w0.walletKey rr =
        Hubs.postInitViaHubDerived w0.programId hub slug w0.walletKey rr) ∧
    (w0.freshKey 0 = w0.freshKey 0 →
      ∀ hubOpt : Option PK,
        Releases.initReleaseAndMintDerived w0.programId (w0.freshKey 0) hubOpt =
          Releases.initReleaseAndMintDerived w0.programId (w0.freshKey 0) hubOpt) :=
  C4_amended w0 w0 rfl rfl

/-! ## Claim C5 — mutation of the caller's hubParams object -/

/-- Claim C5, counterexample: after a `hubInit` (or `hubInitWithCredit`)
call in which `useProgram` succeeded, the caller's `hubParams` object is
NOT the same as before — its fees have been overwritten with scaled
`BN`s and `hubSignerBump` has been set. -/
theorem C5_counterexample :
    Hubs.hubInitParamsAfter w0 p0 ≠ p0 ∧
    CreditHubs.hubInitWithCreditParamsAfter w0 p0 ≠ p0 :=
  ⟨by decide, by decide⟩

/-- Claim C5 (amended): `hubInit` and `hubInitWithCredit` mutate the
caller-supplied `hubParams` object in place: once the program handle is
obtained, `publishFee` and `referralFee` are replaced by
`BN(fee * 10000)` and `hubSignerBump` is set to the derived hub-signer
bump; if the program call threw first, the object is untouched. -/
theorem C5_amended (w : World) (p : HubParams) :
    (w.useProgram = Except.ok () →
      Hubs.hubInitParamsAfter w p =
        { handle := p.handle,
          publishFee := FeeVal.bn (bnOfNum (p.publishFee.toQ * 10000)),
          referralFee := FeeVal.bn (bnOfNum (p.referralFee.toQ * 10000)),
          hubSignerBump :=
            some (Hubs.hubInitDerived w.programId p.handle w.walletKey).2.2.1 }) ∧
    (w.programAt = Except.ok () →
      CreditHubs.hubInitWithCreditParamsAfter w p =
        { handle := p.handle,
          publishFee := FeeVal.bn (bnOfNum (p.publishFee.toQ * 10000)),
          referralFee := FeeVal.bn (bnOfNum (p.referralFee.toQ * 10000)),
          hubSignerBump :=
            some (Hubs.hubInitDerived w.programId p.handle w.walletKey).2.2.1 }) ∧
    (∀ e, w.useProgram = Except.error e → Hubs.hubInitParamsAfter w p = p) ∧
    (∀ e, w.programAt = Except.error e →
      CreditHubs.hubInitWithCreditParamsAfter w p = p) := by
  refine ⟨fun h => ?_, fun h => ?_, fun e h => ?_, fun e h => ?_⟩
  · unfold Hubs.hubInitParamsAfter hubInitMutateFees
    rw [h]
  · unfold CreditHubs.hubInitWithCreditParamsAfter hubInitMutateFees
    rw [h]
  · unfold Hubs.hubInitParamsAfter
    rw [h]
  · unfold CreditHubs.hubInitWithCreditParamsAfter
    rw [h]

/-- Witness for C5 (amended): the mutated `hubParams` at a concrete
input. -/
theorem C5_amended_witness :
    Hubs.hubInitParamsAfter w0 p0 =
      { handle := p0.handle,
        publishFee := FeeVal.bn (bnOfNum (p0.publishFee.toQ * 10000)),
        referralFee := FeeVal.bn (bnOfNum (p0.referralFee.toQ * 10000)),
        hubSignerBump :=
          some (Hubs.hubInitDerived w0.programId p0.handle w0.walletKey).2.2.1 } :=
  (C5_amended w0 p0).1 rfl

/-! ## Claim C6 — the fetch helpers -/

/-- Claim C6, counterexample: a `transactionId` IS supplied to
`Exchange.fetch` (the empty string), yet the GET carries no
`transactionId` query parameter — the source tests JavaScript
truthiness (`transactionId ? { transactionId } : undefined`), not
whether an argument was supplied.  This refutes "attaching a
transactionId query parameter exactly when one is supplied". -/
theorem C6_counterexample :
    Exchanges.fetch "k" false (some "") w0 =
      (Except.ok { payload := 5, hubHandle := "handle" },
       [Event.restGet "/exchanges/k" none false]) := by
  decide

/-- Claim C6 (amended): each exported fetch helper performs exactly one
REST GET to the path built from its arguments and returns the API's
result unchanged — `Hub.fetch` to `/hubs/{publicKeyOrHandle}`,
`Release.fetch` to `/releases/{publicKey}`, `Exchange.fetch` to
`/exchanges/{publicKey}` — with `Exchange.fetch` attaching a
`transactionId` query parameter exactly when a truthy (non-empty) one
is supplied.  (`NinaClient.get` itself is modelled from the spec as a
single GET returning the API result.) -/
theorem C6_amended :
    ∀ (w : World) (pk : String) (wad : Bool) (tid : Option String) (s : String),
      Hubs.fetch pk wad w =
        (w.restGet ("/hubs/" ++ pk) none wad,
         [Event.restGet ("/hubs/" ++ pk) none wad]) ∧
      Releases.fetch pk wad w =
        (w.restGet ("/releases/" ++ pk) none wad,
         [Event.restGet ("/releases/" ++ pk) none wad]) ∧
      Exchanges.fetch pk wad tid w =
        (w.restGet ("/exchanges/" ++ pk) (exchangeFetchParams tid) wad,
         [Event.restGet ("/exchanges/" ++ pk) (exchangeFetchParams tid) wad]) ∧
      exchangeFetchParams none = none ∧
      exchangeFetchParams (some s) =
        (if s = "" then none else some [("transactionId", QVal.str s)]) := by
  intro w pk wad tid s
  exact ⟨rfl, rfl, rfl, rfl, rfl⟩

/-! ## Claim C7 — fetchAll pagination defaults -/

/-- Claim C7: every `fetchAll` helper (Hub, Release, Exchange) issues
its GET with `limit = pagination.limit || 20`,
`offset = pagination.offset || 0` and `sort = pagination.sort || 'desc'`
under JavaScript truthiness: an absent or zero limit becomes 20, an
absent or zero offset stays/becomes 0, an absent or empty sort becomes
`'desc'`; in particular a caller-supplied limit of 0 is replaced by 20
and a caller-supplied offset of 0 stays 0. -/
theorem C7_fetchAll_pagination :
    ∀ (p : Pagination) (wad : Bool) (w : World) (n d : Int) (s d2 : String),
      Hubs.fetchAll p wad w =
        (w.restGet "/hubs" (some (paginationParams p)) wad,
         [Event.restGet "/hubs" (some (paginationParams p)) wad]) ∧
      Releases.fetchAll p wad w =
        (w.restGet "/releases" (some (paginationParams p)) wad,
         [Event.restGet "/releases" (some (paginationParams p)) wad]) ∧
      Exchanges.fetchAll p wad w =
        (w.restGet "/exchanges" (some (paginationParams p)) wad,
         [Event.restGet "/exchanges" (some (paginationParams p)) wad]) ∧
      paginationParams p =
        [("limit", QVal.num (jsOrNum p.limit 20)),
         ("offset", QVal.num (jsOrNum p.offset 0)),
         ("sort", QVal.str (jsOrStr p.sort "desc"))] ∧
      jsOrNum none d = d ∧
      jsOrNum (some n) d = (if n = 0 then d else n) ∧
      jsOrStr none d2 = d2 ∧
      jsOrStr (some s) d2 = (if s = "" then d2 else s) ∧
      jsOrNum (some 0) 20 = 20 ∧
      jsOrNum (some 0) 0 = 0 := by
  intro p wad w n d s d2
  exact ⟨rfl, rfl, rfl, rfl, rfl, rfl, rfl, rfl, rfl, rfl⟩

/-! ## Claim C8 — the releaseInit config -/

/-- Claim C8: in the config `releaseInit` and `releaseInitViaHub` send
on-chain, `amountTotalSupply` is `MAX_INT` (the parsed
`'18446744073709551615'`, i.e. `2^64 - 1`) whenever `isOpen` is true —
regardless of the `amount` argument — and is the `amount` argument
when `isOpen` is false; `amountToArtistTokenAccount` and
`amountToVaultTokenAccount` are always 0.  (Both function bodies build
their config through `Releases.releaseInitConfig`.) -/
theorem C8_releaseInitConfig :
    ∀ (isOpen : Bool) (amount : Int) (rp : ℚ) (pn : Int) (nw : ℚ),
      (Releases.releaseInitConfig isOpen amount rp pn nw).amountTotalSupply =
        (if isOpen then 18446744073709551615 else amount) ∧
      (Releases.releaseInitConfig isOpen amount rp pn nw).amountToArtistTokenAccount = 0 ∧
      (Releases.releaseInitConfig isOpen amount rp pn nw).amountToVaultTokenAccount = 0 ∧
      MAX_INT = 2 ^ 64 - 1 := by
  intro isOpen amount rp pn nw
  refine ⟨?_, rfl, rfl, by norm_num [MAX_INT]⟩
  cases isOpen <;> rfl

/-! ## Claim C9 — the exchangeInit config -/

/-- Claim C9: in `exchangeInit`, when `isSelling` is true the config has
`initializerAmount` 1 and `expectedAmount` equal to the `amount`
argument, with the initializer sending the release mint and expecting
the payment mint; when `isSelling` is false, `expectedAmount` is 1,
`initializerAmount` is the `amount` argument, and the mints are
swapped.  (The body of `exchangeInit` builds its config and account
list from `Exchanges.exchangeInitPlan`.) -/
theorem C9_exchangeInitPlan :
    ∀ (amount : Int) (releaseMint paymentMint : PK),
      Exchanges.exchangeInitPlan true amount releaseMint paymentMint =
        { expectedAmount := amount, initializerAmount := 1,
          initializerSendingMint := releaseMint,
          initializerExpectedMint := paymentMint } ∧
      Exchanges.exchangeInitPlan false amount releaseMint paymentMint =
        { expectedAmount := 1, initializerAmount := amount,
          initializerSendingMint := paymentMint,
          initializerExpectedMint := releaseMint } := by
  intro amount rm pm
  exact ⟨rfl, rfl⟩
